import Mathlib

/-!
BMO embedded display firmware: a shallow embedding.

The C++ sources `display.h` / `display.cpp` (class `BMODisplay`) and
`graphics.h` / `graphics.cpp` (class `BMOGraphics`) are translated function by
function.

* Member functions become functions on an explicit environment: the object's
  fields, the process-wide pointer (`g_bmoDisplay`, `g_bmoGraphics`) and the
  chronological list of effects issued so far (`trace`).
* A pointer is an `Option Nat` (`none` is `nullptr`).
* A function returns an `Option` when its C++ body can run into undefined
  behaviour; `none` is that undefined behaviour.  There are two sources of it:
  a call through a null pointer (`tft->f(...)` with `tft == nullptr`), and the
  conversion of a `float` whose integer part does not fit a 32-bit `int`.
* Values the hardware hands back (the result of `new`, register bytes, panel
  dimensions) are inputs of the model, collected in `PanelResponses`.
* `uint8_t`, `uint16_t`, `uint32_t` are naturals reduced modulo `2^8`, `2^16`,
  `2^32` wherever the source converts to those types.  `int` is 32 bits wide on
  the target (Arduino Nano ESP32) and is modelled by `Int`; every `int`
  computed by the source from its constants is far from the limits, and the
  theorem on the happy mouth, whose centre is free, assumes of the centre that
  no `int` computed from it leaves the 32-bit range.
* A `float` is a rational number and the rounding of the FPU is a parameter
  `rnd` of the functions that compute with `float`s.
-/

namespace BMO

/-! ## Constants of `display.h` -/

def DISPLAY_WIDTH : Int := 240
def DISPLAY_HEIGHT : Int := 320
def DISPLAY_ROTATION : Nat := 0

def TFT_CS : Nat := 10
def TFT_RST : Nat := 9
def TFT_DC : Nat := 8
def TFT_LED : Nat := 7

def SPI_FREQUENCY : Nat := 27000000

/-- Display controller types (`enum DisplayController`). -/
inductive DisplayController
  | CONTROLLER_UNKNOWN
  | CONTROLLER_ILI9341
  | CONTROLLER_ST7789
  deriving DecidableEq, Repr

/-- Display status codes (`enum DisplayStatus`). -/
inductive DisplayStatus
  | DISPLAY_OK
  | DISPLAY_ERROR_INIT
  | DISPLAY_ERROR_SPI
  | DISPLAY_ERROR_CONTROLLER
  | DISPLAY_ERROR_MEMORY
  deriving DecidableEq, Repr

/-! ## Effects -/

/-- An argument of `Serial.printf`. -/
inductive PrintfArg
  | num (v : Int)
  | str (s : String)
  deriving DecidableEq, Repr

/-- The member functions of the panel driver `TFT_eSPI` that the firmware calls
for their effect on the panel. -/
inductive TftCall
  | init
  | writecommand (c : Nat)
  | writedata (d : Nat)
  | readcommand8 (cmd : Nat) (index : Nat)
  | setRotation (r : Nat)
  | startWrite
  | endWrite
  | setAddrWindow (x y w h : Nat)
  | fillScreen (color : Nat)
  | drawPixel (x y : Int) (color : Nat)
  | drawFastHLine (x y w : Int) (color : Nat)
  | drawLine (x0 y0 x1 y1 : Int) (color : Nat)
  | drawCircle (x y r : Int) (color : Nat)
  | fillCircle (x y r : Int) (color : Nat)
  | fillEllipse (x y rx ry : Int) (color : Nat)
  | fillRect (x y w h : Int) (color : Nat)
  | drawRoundRect (x y w h r : Int) (color : Nat)
  deriving DecidableEq, Repr

/-- Everything the firmware does to the outside world, in the order issued. -/
inductive HwEvent
  | serialPrintln (msg : String)
  | serialPrintf (fmt : String) (args : List PrintfArg)
  | pinModeOutput (pin : Nat)
  | digitalWrite (pin : Nat) (high : Bool)
  | analogWrite (pin : Nat) (value : Nat)
  | analogWriteFrequency (pin : Nat) (freq : Nat)
  | delay (ms : Nat)
  | newTft (result : Option Nat)
  | deleteTft (p : Nat)
  | tft (call : TftCall)
  deriving DecidableEq, Repr

/-- What the environment answers during one call of a member function: the
pointer returned by `new TFT_eSPI()` (`none` when the allocation fails), the
three bytes returned by `readcommand8(0x04, 1..3)`, the byte returned by
`readcommand8(0x09, 1)`, and the values of the getters `width()`, `height()`. -/
structure PanelResponses where
  alloc : Option Nat
  idByte1 : Nat
  idByte2 : Nat
  idByte3 : Nat
  statusReg : Nat
  width : Int
  height : Int
  deriving DecidableEq, Repr

/-! ## `class BMODisplay` -/

/-- The private fields of `BMODisplay`. -/
structure BMODisplay where
  tft : Option Nat
  status : DisplayStatus
  controller : DisplayController
  backlightLevel : Nat
  lastError : Option String
  initialized : Bool
  deriving DecidableEq, Repr

/-- One display manager in its environment: the object, the global
`g_bmoDisplay`, and the effects issued so far. -/
structure World where
  display : BMODisplay
  g_bmoDisplay : Option Nat
  trace : List HwEvent
  deriving DecidableEq, Repr

/-- Record one effect. -/
def emit (e : HwEvent) (w : World) : World :=
  { w with trace := w.trace ++ [e] }

/-- A call `tft->f(...)` of the manager: undefined (`none`) on a null `tft`. -/
def tftCall (c : TftCall) (w : World) : Option World :=
  match w.display.tft with
  | none => none
  | some _ => some (emit (HwEvent.tft c) w)

namespace BMODisplay

/-- The constructor `BMODisplay::BMODisplay()`. -/
def new : BMODisplay :=
  { tft := none
    status := DisplayStatus.DISPLAY_OK
    controller := DisplayController.CONTROLLER_UNKNOWN
    backlightLevel := 255
    lastError := none
    initialized := false }

/-- A freshly constructed manager: `g_bmoDisplay` is `nullptr`, nothing issued. -/
def newWorld : World :=
  { display := new, g_bmoDisplay := none, trace := [] }

def getStatus (d : BMODisplay) : DisplayStatus := d.status

def getController (d : BMODisplay) : DisplayController := d.controller

def getBacklight (d : BMODisplay) : Nat := d.backlightLevel

def getLastError (d : BMODisplay) : Option String := d.lastError

/-- The inline `clearError()`. -/
def clearError (w : World) : World :=
  { w with display := { w.display with lastError := none, status := DisplayStatus.DISPLAY_OK } }

/-- The private `setError(errorStatus, message)`. -/
def setError (errorStatus : DisplayStatus) (message : String) (w : World) : World :=
  let w := { w with display := { w.display with status := errorStatus } }
  let w := { w with display := { w.display with lastError := some message } }
  emit (HwEvent.serialPrintf "Display Error: %s\n" [PrintfArg.str message]) w

/-- The member `setBacklight(uint8_t brightness)`; the argument is converted to
`uint8_t` at the call. -/
def setBacklight (brightness : Nat) (w : World) : World :=
  let brightness := brightness % 256
  let w := { w with display := { w.display with backlightLevel := brightness } }
  let w := emit (HwEvent.analogWrite TFT_LED brightness) w
  emit (HwEvent.serialPrintf "Backlight set to %d/255\n" [PrintfArg.num brightness]) w

/-- The inline `backlightOn()`. -/
def backlightOn (w : World) : World := setBacklight 255 w

/-- The inline `backlightOff()`. -/
def backlightOff (w : World) : World := setBacklight 0 w

/-- The private `initializeBacklight()`. -/
def initializeBacklight (w : World) : World :=
  let w := emit (HwEvent.pinModeOutput TFT_LED) w
  let w := emit (HwEvent.analogWriteFrequency TFT_LED 1000) w
  let w := emit (HwEvent.analogWrite TFT_LED 0) w
  emit (HwEvent.serialPrintln "Backlight control initialized") w

/-- The private `initializeSPI()`: pin set-up and the hardware reset pulse. -/
def initializeSPI (w : World) : Bool × World :=
  let w := emit (HwEvent.pinModeOutput TFT_CS) w
  let w := emit (HwEvent.pinModeOutput TFT_RST) w
  let w := emit (HwEvent.pinModeOutput TFT_DC) w
  let w := emit (HwEvent.digitalWrite TFT_CS true) w
  let w := emit (HwEvent.digitalWrite TFT_RST true) w
  let w := emit (HwEvent.digitalWrite TFT_DC true) w
  let w := emit (HwEvent.digitalWrite TFT_RST false) w
  let w := emit (HwEvent.delay 10) w
  let w := emit (HwEvent.digitalWrite TFT_RST true) w
  let w := emit (HwEvent.delay 120) w
  let w := emit (HwEvent.serialPrintln "SPI pins configured and display reset complete") w
  (true, w)

/-- The `uint32_t id` that `detectController()` assembles from the three bytes
returned by `readcommand8` (each a `uint8_t`). -/
def readDisplayId (r : PanelResponses) : Nat :=
  let id := r.idByte1 % 256
  let id := (id <<< 8) % 2 ^ 32
  let id := id ||| (r.idByte2 % 256)
  let id := (id <<< 8) % 2 ^ 32
  id ||| (r.idByte3 % 256)

/-- The private `detectController()`. -/
def detectController (r : PanelResponses) (w : World) : Option (Bool × World) := do
  let w := emit (HwEvent.digitalWrite TFT_CS false) w
  let w ← tftCall (TftCall.writecommand 0x04) w
  let w ← tftCall (TftCall.readcommand8 0x04 1) w
  let w ← tftCall (TftCall.readcommand8 0x04 2) w
  let w ← tftCall (TftCall.readcommand8 0x04 3) w
  let id := readDisplayId r
  let w := emit (HwEvent.digitalWrite TFT_CS true) w
  let w := emit (HwEvent.serialPrintf "Display ID: 0x%06X\n" [PrintfArg.num id]) w
  if id &&& 0xFFFF = 0x9341 then
    let w := { w with display := { w.display with controller := DisplayController.CONTROLLER_ILI9341 } }
    let w := emit (HwEvent.serialPrintln "Detected ILI9341 controller") w
    pure (true, w)
  else if id &&& 0xFFFF = 0x7789 ∨ id &&& 0xFF = 0x85 then
    let w := { w with display := { w.display with controller := DisplayController.CONTROLLER_ST7789 } }
    let w := emit (HwEvent.serialPrintln "Detected ST7789 controller") w
    pure (true, w)
  else
    let w := { w with display := { w.display with controller := DisplayController.CONTROLLER_ILI9341 } }
    let w := emit (HwEvent.serialPrintln "Controller detection uncertain, defaulting to ILI9341") w
    pure (true, w)

/-- The private `initILI9341()`. -/
def initILI9341 (w : World) : Option (Bool × World) := do
  let w := emit (HwEvent.serialPrintln "Configuring for ILI9341 controller") w
  let w ← tftCall (TftCall.writecommand 0xEF) w
  let w ← tftCall (TftCall.writedata 0x03) w
  let w ← tftCall (TftCall.writedata 0x80) w
  let w ← tftCall (TftCall.writedata 0x02) w
  let w ← tftCall (TftCall.writecommand 0xCF) w
  let w ← tftCall (TftCall.writedata 0x00) w
  let w ← tftCall (TftCall.writedata 0xC1) w
  let w ← tftCall (TftCall.writedata 0x30) w
  let w ← tftCall (TftCall.writecommand 0x20) w
  let w ← tftCall (TftCall.writecommand 0x36) w
  let w ← tftCall (TftCall.writedata 0x48) w
  pure (true, w)

/-- The private `initST7789()`. -/
def initST7789 (w : World) : Option (Bool × World) := do
  let w := emit (HwEvent.serialPrintln "Configuring for ST7789 controller") w
  let w ← tftCall (TftCall.writecommand 0x36) w
  let w ← tftCall (TftCall.writedata 0x00) w
  let w ← tftCall (TftCall.writecommand 0x3A) w
  let w ← tftCall (TftCall.writedata 0x05) w
  pure (true, w)

/-- The private `configureDisplay()`.  The getters `width()` and `height()`
read fields of the driver object and issue nothing to the panel. -/
def configureDisplay (r : PanelResponses) (w : World) : Option (Bool × World) := do
  let w ← tftCall (TftCall.setRotation DISPLAY_ROTATION) w
  let w :=
    if r.width ≠ DISPLAY_WIDTH ∨ r.height ≠ DISPLAY_HEIGHT then
      emit (HwEvent.serialPrintf
        "Warning: Unexpected display dimensions %dx%d (expected %dx%d)\n"
        [PrintfArg.num r.width, PrintfArg.num r.height,
         PrintfArg.num DISPLAY_WIDTH, PrintfArg.num DISPLAY_HEIGHT]) w
    else w
  match w.display.controller with
  | DisplayController.CONTROLLER_ILI9341 => initILI9341 w
  | DisplayController.CONTROLLER_ST7789 => initST7789 w
  | DisplayController.CONTROLLER_UNKNOWN => initILI9341 w

/-- The private `testSPIConnection()`; the local `uint8_t status` holds the
byte read back from register `0x09`. -/
def testSPIConnection (r : PanelResponses) (w : World) : Option (Bool × World) := do
  let w := emit (HwEvent.digitalWrite TFT_CS false) w
  let w ← tftCall (TftCall.writecommand 0x09) w
  let w ← tftCall (TftCall.readcommand8 0x09 1) w
  let status := r.statusReg % 256
  let w := emit (HwEvent.digitalWrite TFT_CS true) w
  let w := emit (HwEvent.serialPrintf "Display status register: 0x%02X\n" [PrintfArg.num status]) w
  pure (decide (status ≠ 0x00 ∧ status ≠ 0xFF), w)

/-- The private `testDisplayMemory()`. -/
def testDisplayMemory (w : World) : Option (Bool × World) := do
  let testColor := 0x7E0
  let w ← tftCall (TftCall.drawPixel 10 10 testColor) w
  pure (true, w)

/-- The public `testDisplay()`. -/
def testDisplay (r : PanelResponses) (w : World) : Option (Bool × World) := do
  let w := emit (HwEvent.serialPrintln "Running display tests...") w
  let (okSpi, w) ← testSPIConnection r w
  if !okSpi then pure (false, w) else
  let (okMem, w) ← testDisplayMemory w
  if !okMem then pure (false, w) else
  let w ← tftCall (TftCall.fillScreen 0x0000) w
  let w := emit (HwEvent.delay 100) w
  let w ← tftCall (TftCall.fillScreen 0xFFFF) w
  let w := emit (HwEvent.delay 100) w
  let w ← tftCall (TftCall.fillScreen 0xF800) w
  let w := emit (HwEvent.delay 100) w
  let w ← tftCall (TftCall.fillScreen 0x07E0) w
  let w := emit (HwEvent.delay 100) w
  let w ← tftCall (TftCall.fillScreen 0x001F) w
  let w := emit (HwEvent.delay 100) w
  let w ← tftCall (TftCall.fillScreen 0x0000) w
  let w := emit (HwEvent.serialPrintln "All display tests passed!") w
  pure (true, w)

/-- The public `printDisplayInfo()`. -/
def printDisplayInfo (w : World) : World :=
  let d := w.display
  let w := emit (HwEvent.serialPrintln "=== BMO Display Information ===") w
  let w := emit (HwEvent.serialPrintf "Status: %s\n"
    [PrintfArg.str (if d.status = DisplayStatus.DISPLAY_OK then "OK" else "ERROR")]) w
  let w := emit (HwEvent.serialPrintf "Controller: %s\n"
    [PrintfArg.str
      (if d.controller = DisplayController.CONTROLLER_ILI9341 then "ILI9341"
       else if d.controller = DisplayController.CONTROLLER_ST7789 then "ST7789"
       else "Unknown")]) w
  let w := emit (HwEvent.serialPrintf "Dimensions: %dx%d\n"
    [PrintfArg.num DISPLAY_WIDTH, PrintfArg.num DISPLAY_HEIGHT]) w
  let w := emit (HwEvent.serialPrintf "Rotation: %d\n" [PrintfArg.num DISPLAY_ROTATION]) w
  let w := emit (HwEvent.serialPrintf "Backlight: %d/255\n" [PrintfArg.num d.backlightLevel]) w
  let w := emit (HwEvent.serialPrintf "SPI Frequency: %d Hz\n" [PrintfArg.num SPI_FREQUENCY]) w
  emit (HwEvent.serialPrintln "==============================") w

/-- The part of `begin()` after the handle exists: lines 39 to 81 of
`display.cpp`. -/
def beginInit (self : Nat) (r : PanelResponses) (w : World) : Option (Bool × World) := do
  let w := initializeBacklight w
  let (okSpi, w) := initializeSPI w
  if !okSpi then
    pure (false, setError DisplayStatus.DISPLAY_ERROR_SPI "SPI initialization failed" w)
  else
  let w ← tftCall TftCall.init w
  let (okDet, w) ← detectController r w
  if !okDet then
    pure (false, setError DisplayStatus.DISPLAY_ERROR_CONTROLLER "Controller detection failed" w)
  else
  let (okCfg, w) ← configureDisplay r w
  if !okCfg then
    pure (false, setError DisplayStatus.DISPLAY_ERROR_INIT "Display configuration failed" w)
  else
  let (okTest, w) ← testDisplay r w
  if !okTest then
    pure (false, setError DisplayStatus.DISPLAY_ERROR_INIT "Display test failed" w)
  else
  let w := setBacklight 255 w
  let w := { w with g_bmoDisplay := some self }
  let w := { w with display := { w.display with initialized := true } }
  let w := { w with display := { w.display with status := DisplayStatus.DISPLAY_OK } }
  let w := emit (HwEvent.serialPrintln "Display initialized successfully!") w
  let w := printDisplayInfo w
  pure (true, w)

/-- The public `begin()` of the manager at address `self`. -/
def begin (self : Nat) (r : PanelResponses) (w : World) : Option (Bool × World) :=
  let w := emit (HwEvent.serialPrintln "Initializing BMO Display...") w
  match w.display.tft with
  | none =>
    let w := emit (HwEvent.newTft r.alloc) w
    let w := { w with display := { w.display with tft := r.alloc } }
    match w.display.tft with
    | none =>
      some (false, setError DisplayStatus.DISPLAY_ERROR_MEMORY "Failed to allocate TFT object" w)
    | some _ => beginInit self r w
  | some _ => beginInit self r w

end BMODisplay

/-- The public `end()`. -/
def BMODisplay.end (w : World) : World :=
  if w.display.initialized then
    let w := BMODisplay.backlightOff w
    let w :=
      match w.display.tft with
      | some p =>
        let w := emit (HwEvent.deleteTft p) w
        { w with display := { w.display with tft := none } }
      | none => w
    let w := { w with display := { w.display with initialized := false } }
    let w := { w with g_bmoDisplay := none }
    emit (HwEvent.serialPrintln "Display shutdown complete.") w
  else w

namespace BMODisplay

/-- The public `sleep()`. -/
def sleep (w : World) : Option World :=
  if !w.display.initialized then some w else do
  let w := backlightOff w
  let w ← tftCall (TftCall.writecommand 0x10) w
  let w := emit (HwEvent.delay 120) w
  pure (emit (HwEvent.serialPrintln "Display entered sleep mode") w)

/-- The public `wakeup()`. -/
def wakeup (w : World) : Option World :=
  if !w.display.initialized then some w else do
  let w ← tftCall (TftCall.writecommand 0x11) w
  let w := emit (HwEvent.delay 120) w
  let w := setBacklight w.display.backlightLevel w
  pure (emit (HwEvent.serialPrintln "Display woke up from sleep") w)

/-- The public `reset()`; the result of `configureDisplay()` is discarded. -/
def reset (r : PanelResponses) (w : World) : Option World := do
  let w := emit (HwEvent.serialPrintln "Performing display reset...") w
  let w := emit (HwEvent.digitalWrite TFT_RST false) w
  let w := emit (HwEvent.delay 10) w
  let w := emit (HwEvent.digitalWrite TFT_RST true) w
  let w := emit (HwEvent.delay 120) w
  if w.display.initialized then
    let (_, w) ← configureDisplay r w
    pure w
  else pure w

/-- The public `clear(color)`, `color` a `uint16_t`. -/
def clear (color : Nat) (w : World) : World :=
  match w.display.tft with
  | some _ => emit (HwEvent.tft (TftCall.fillScreen (color % 65536))) w
  | none => w

/-- The public `startWrite()`. -/
def startWrite (w : World) : World :=
  match w.display.tft with
  | some _ => emit (HwEvent.tft TftCall.startWrite) w
  | none => w

/-- The public `endWrite()`. -/
def endWrite (w : World) : World :=
  match w.display.tft with
  | some _ => emit (HwEvent.tft TftCall.endWrite) w
  | none => w

/-- The public `setAddrWindow(x, y, w, h)`, all `uint16_t`. -/
def setAddrWindow (x y wd h : Nat) (w : World) : World :=
  match w.display.tft with
  | some _ =>
    emit (HwEvent.tft (TftCall.setAddrWindow (x % 65536) (y % 65536) (wd % 65536) (h % 65536))) w
  | none => w

/-- The PWM duty last written to the backlight pin, if any: the trace is
scanned in the order issued, the latest `analogWrite(TFT_LED, v)` wins. -/
def lastBacklightPwm (trace : List HwEvent) : Option Nat :=
  trace.foldl (fun acc e =>
    match e with
    | HwEvent.analogWrite pin v => if pin = TFT_LED then some v else acc
    | _ => acc) none

/-- Specification function: the controller kind that the three branches of
`detectController()` select for an assembled ID. -/
def classify (id : Nat) : DisplayController :=
  if id &&& 0xFFFF = 0x9341 then DisplayController.CONTROLLER_ILI9341
  else if id &&& 0xFFFF = 0x7789 ∨ id &&& 0xFF = 0x85 then DisplayController.CONTROLLER_ST7789
  else DisplayController.CONTROLLER_ILI9341

/-- Specification function: the value `testSPIConnection()` returns for the
byte read from register `0x09`. -/
def statusRegOk (r : PanelResponses) : Bool :=
  decide (r.statusReg % 256 ≠ 0x00 ∧ r.statusReg % 256 ≠ 0xFF)

/-- Sample answers of a panel that passes every check: ID `0x009341`, status
byte `0x53`, allocation at address `7`. -/
def healthyPanel : PanelResponses :=
  { alloc := some 7, idByte1 := 0x00, idByte2 := 0x93, idByte3 := 0x41
    statusReg := 0x53, width := 240, height := 320 }

/-- Sample answers of a panel whose status register reads `0x00`. -/
def silentPanel : PanelResponses :=
  { alloc := some 7, idByte1 := 0x00, idByte2 := 0x93, idByte3 := 0x41
    statusReg := 0x00, width := 240, height := 320 }

/-- A sample READY manager at address `1`: handle `7`, backlight level `200`. -/
def readyWorld : World :=
  { display :=
      { tft := some 7
        status := DisplayStatus.DISPLAY_OK
        controller := DisplayController.CONTROLLER_ILI9341
        backlightLevel := 200
        lastError := none
        initialized := true }
    g_bmoDisplay := some 1
    trace := [] }

end BMODisplay

/-! ## `graphics.h`: palette, geometry, enumerations, colour macros -/

def BMO_TEAL : Nat := 0x4E6D
def BMO_DARK_TEAL : Nat := 0x2945
def BMO_LIGHT_TEAL : Nat := 0x6EDD
def BMO_BLACK : Nat := 0x0000
def BMO_WHITE : Nat := 0xFFFF

def FACE_CENTER_X : Int := 120
def FACE_CENTER_Y : Int := 160
def EYE_RADIUS : Int := 25
def EYE_SEPARATION : Int := 100
def EYE_Y_OFFSET : Int := -40
def MOUTH_Y_OFFSET : Int := 30
def MOUTH_WIDTH : Int := 60
def MOUTH_HEIGHT : Int := 20

def BLINK_DURATION : Nat := 150

/-- Expression types (`enum BMOExpression`). -/
inductive BMOExpression
  | EXPRESSION_HAPPY
  | EXPRESSION_SURPRISED
  | EXPRESSION_SLEEPY
  | EXPRESSION_EXCITED
  | EXPRESSION_CONFUSED
  | EXPRESSION_COUNT
  deriving DecidableEq, Repr

/-- Eye states (`enum EyeState`). -/
inductive EyeState
  | EYES_OPEN
  | EYES_CLOSED
  | EYES_HALF_CLOSED
  | EYES_WIDE
  deriving DecidableEq, Repr

/-- The integer value of an expression, as printed with `%d`. -/
def BMOExpression.toInt : BMOExpression → Int
  | EXPRESSION_HAPPY => 0
  | EXPRESSION_SURPRISED => 1
  | EXPRESSION_SLEEPY => 2
  | EXPRESSION_EXCITED => 3
  | EXPRESSION_CONFUSED => 4
  | EXPRESSION_COUNT => 5

/-- The integer value of an eye state, as printed with `%d`. -/
def EyeState.toInt : EyeState → Int
  | EYES_OPEN => 0
  | EYES_CLOSED => 1
  | EYES_HALF_CLOSED => 2
  | EYES_WIDE => 3

/-- The macro `RGB565(r, g, b)`. -/
def RGB565 (r g b : Nat) : Nat :=
  ((r &&& 0xF8) <<< 8) ||| ((g &&& 0xFC) <<< 3) ||| (b >>> 3)

/-- The macro `RED_FROM_565(color)`. -/
def RED_FROM_565 (color : Nat) : Nat := (color >>> 8) &&& 0xF8

/-- The macro `GREEN_FROM_565(color)`. -/
def GREEN_FROM_565 (color : Nat) : Nat := (color >>> 3) &&& 0xFC

/-- The macro `BLUE_FROM_565(color)`. -/
def BLUE_FROM_565 (color : Nat) : Nat := (color <<< 3) &&& 0xF8

/-! ## Single-precision arithmetic

A finite `float` is a rational number.  Every `float` operation of the source
is the exact rational operation followed by the rounding `rnd : ℚ → ℚ` of the
FPU, which the model takes as a parameter.  A conversion from `float` to an
integer type discards the fractional part and is undefined (`none`) when the
truncated value does not fit a 32-bit `int`.  The conversion to `uint8_t` is
compiled as the conversion to a 32-bit integer followed by the narrowing to
eight bits, so a truncated value outside `0..255` that fits 32 bits is reduced
modulo `256`: `(uint8_t)(-248.0f)` is `8`.  A division by zero yields an
infinity or a NaN, from which the source only ever goes on to such a
conversion, so it is `none` as well. -/

/-- Conversion `(float)n` of an `int`. -/
def intToFloat (rnd : ℚ → ℚ) (n : Int) : ℚ := rnd (n : ℚ)

def fmul (rnd : ℚ → ℚ) (a b : ℚ) : ℚ := rnd (a * b)

def fsub (rnd : ℚ → ℚ) (a b : ℚ) : ℚ := rnd (a - b)

def fdiv (rnd : ℚ → ℚ) (a b : ℚ) : Option ℚ :=
  if b = 0 then none else some (rnd (a / b))

/-- The integer part of a rational, rounding toward zero. -/
def truncate (x : ℚ) : Int := Int.tdiv x.num (x.den : Int)

/-- Conversion `(uint8_t)x` of a `float`: the low eight bits of the truncated
value. -/
def floatToUint8 (x : ℚ) : Option Nat :=
  if -2147483648 ≤ truncate x ∧ truncate x ≤ 2147483647 then some (truncate x % 256).toNat
  else none

/-- Conversion `(int)x` of a `float`, `int` being 32 bits wide. -/
def floatToInt (x : ℚ) : Option Int :=
  if -2147483648 ≤ truncate x ∧ truncate x ≤ 2147483647 then some (truncate x) else none

/-- The rounding is exact on the integers from `-255` to `255`, as the
rounding of single precision is (it is exact on every integer of magnitude
below `2^24`). -/
def ExactOnBytes (rnd : ℚ → ℚ) : Prop :=
  ∀ n : Int, -255 ≤ n → n ≤ 255 → rnd (n : ℚ) = (n : ℚ)

/-! ## `class BMOGraphics` -/

/-- The private fields of `BMOGraphics`. -/
structure BMOGraphics where
  tft : Option Nat
  initialized : Bool
  currentExpression : BMOExpression
  currentEyeState : EyeState
  fastDrawMode : Bool
  drawRegionX : Int
  drawRegionY : Int
  drawRegionW : Int
  drawRegionH : Int
  deriving DecidableEq, Repr

/-- One renderer in its environment: the object, the global `g_bmoGraphics`,
and the effects issued so far. -/
structure GfxWorld where
  graphics : BMOGraphics
  g_bmoGraphics : Option Nat
  trace : List HwEvent
  deriving DecidableEq, Repr

/-- Record one effect. -/
def gfxEmit (e : HwEvent) (g : GfxWorld) : GfxWorld :=
  { g with trace := g.trace ++ [e] }

/-- A call `tft->f(...)` of the renderer: undefined (`none`) on a null `tft`. -/
def gfxCall (c : TftCall) (g : GfxWorld) : Option GfxWorld :=
  match g.graphics.tft with
  | none => none
  | some _ => some (gfxEmit (HwEvent.tft c) g)

/-- Run the body of `for (int i = 0; i < n; i++)` for `i = 0, ..., n - 1`. -/
def forUpTo (n : Nat) (body : Int → GfxWorld → Option GfxWorld) (g : GfxWorld) :
    Option GfxWorld :=
  (List.range n).foldlM (fun g (i : Nat) => body (i : Int) g) g

namespace BMOGraphics

/-- The constructor `BMOGraphics::BMOGraphics()`. -/
def new : BMOGraphics :=
  { tft := none
    initialized := false
    currentExpression := BMOExpression.EXPRESSION_HAPPY
    currentEyeState := EyeState.EYES_OPEN
    fastDrawMode := false
    drawRegionX := 0
    drawRegionY := 0
    drawRegionW := 240
    drawRegionH := 320 }

/-- A freshly constructed renderer: `g_bmoGraphics` is `nullptr`, nothing issued. -/
def newWorld : GfxWorld :=
  { graphics := new, g_bmoGraphics := none, trace := [] }

/-- The public `begin(display)` of the renderer at address `self`. -/
def begin (self : Nat) (display : Option Nat) (g : GfxWorld) : GfxWorld :=
  let g := { g with graphics := { g.graphics with tft := display } }
  let g := { g with graphics := { g.graphics with initialized := g.graphics.tft.isSome } }
  if g.graphics.initialized then
    let g := { g with g_bmoGraphics := some self }
    gfxEmit (HwEvent.serialPrintln "BMO Graphics initialized successfully") g
  else
    gfxEmit (HwEvent.serialPrintln
      "ERROR: BMO Graphics initialization failed - no display provided") g

/-- The colour utility `blendColors(color1, color2, ratio)`: `uint16_t` colours,
`uint8_t` channels, `float` ratio. -/
def blendColors (rnd : ℚ → ℚ) (color1 color2 : Nat) (ratio : ℚ) : Option Nat := do
  let color1 := color1 % 65536
  let color2 := color2 % 65536
  let r1 := RED_FROM_565 color1 % 256
  let g1 := GREEN_FROM_565 color1 % 256
  let b1 := BLUE_FROM_565 color1 % 256
  let r2 := RED_FROM_565 color2 % 256
  let g2 := GREEN_FROM_565 color2 % 256
  let b2 := BLUE_FROM_565 color2 % 256
  let dr ← floatToUint8 (fmul rnd (intToFloat rnd ((r2 : Int) - (r1 : Int))) ratio)
  let r := (r1 + dr) % 256
  let dg ← floatToUint8 (fmul rnd (intToFloat rnd ((g2 : Int) - (g1 : Int))) ratio)
  let g := (g1 + dg) % 256
  let db ← floatToUint8 (fmul rnd (intToFloat rnd ((b2 : Int) - (b1 : Int))) ratio)
  let b := (b1 + db) % 256
  pure (RGB565 r g b % 65536)

/-- The colour utility `darkenColor(color, amount)`. -/
def darkenColor (rnd : ℚ → ℚ) (color : Nat) (amount : ℚ) : Option Nat := do
  let color := color % 65536
  let r := RED_FROM_565 color % 256
  let g := GREEN_FROM_565 color % 256
  let b := BLUE_FROM_565 color % 256
  let r ← floatToUint8 (fmul rnd (intToFloat rnd (r : Int)) (fsub rnd 1 amount))
  let g ← floatToUint8 (fmul rnd (intToFloat rnd (g : Int)) (fsub rnd 1 amount))
  let b ← floatToUint8 (fmul rnd (intToFloat rnd (b : Int)) (fsub rnd 1 amount))
  pure (RGB565 r g b % 65536)

/-- The public `startFastDraw()`. -/
def startFastDraw (g : GfxWorld) : Option GfxWorld :=
  if g.graphics.initialized then do
    let g ← gfxCall TftCall.startWrite g
    pure { g with graphics := { g.graphics with fastDrawMode := true } }
  else some g

/-- The public `endFastDraw()`. -/
def endFastDraw (g : GfxWorld) : Option GfxWorld :=
  if g.graphics.initialized && g.graphics.fastDrawMode then do
    let g ← gfxCall TftCall.endWrite g
    pure { g with graphics := { g.graphics with fastDrawMode := false } }
  else some g

/-- The public `clearScreen(color)`, `color` a `uint16_t`. -/
def clearScreen (color : Nat) (g : GfxWorld) : Option GfxWorld :=
  if g.graphics.initialized then gfxCall (TftCall.fillScreen (color % 65536)) g
  else some g

/-- The public `drawBackground()`; the loop variable takes the values
`y = 0, 4, ..., 316`. -/
def drawBackground (rnd : ℚ → ℚ) (g : GfxWorld) : Option GfxWorld := do
  let g ← gfxCall (TftCall.fillScreen BMO_TEAL) g
  forUpTo 80 (fun k g => do
    let y := 4 * k
    let t ← fdiv rnd (intToFloat rnd y) 320
    let gradientColor ← blendColors rnd BMO_TEAL BMO_LIGHT_TEAL (fmul rnd t (rnd (1 / 10)))
    gfxCall (TftCall.drawFastHLine 0 y 240 gradientColor) g) g

/-- The utility `drawRoundedRect(x, y, width, height, radius, color)`. -/
def drawRoundedRect (x y width height radius : Int) (color : Nat) (g : GfxWorld) :
    Option GfxWorld :=
  gfxCall (TftCall.drawRoundRect x y width height radius color) g

/-- The public `drawFrame()`. -/
def drawFrame (g : GfxWorld) : Option GfxWorld := do
  let frameThickness : Int := 6
  let cornerRadius : Int := 12
  let g ← forUpTo 6 (fun i g =>
    drawRoundedRect i i (240 - i * 2) (320 - i * 2) cornerRadius BMO_DARK_TEAL g) g
  drawRoundedRect frameThickness frameThickness
    (240 - frameThickness * 2) (320 - frameThickness * 2) (cornerRadius - 2) BMO_LIGHT_TEAL g

/-- The private `drawAntiAliasedCircle(centerX, centerY, radius, color)`; the
argument of `drawCircle` is evaluated before the call. -/
def drawAntiAliasedCircle (rnd : ℚ → ℚ) (centerX centerY radius : Int) (color : Nat)
    (g : GfxWorld) : Option GfxWorld := do
  let g ← gfxCall (TftCall.fillCircle centerX centerY radius color) g
  let outline ← darkenColor rnd color (rnd (2 / 10))
  gfxCall (TftCall.drawCircle centerX centerY radius outline) g

/-- The utility `drawSmoothCircle(centerX, centerY, radius, color)`. -/
def drawSmoothCircle (rnd : ℚ → ℚ) (centerX centerY radius : Int) (color : Nat)
    (g : GfxWorld) : Option GfxWorld :=
  drawAntiAliasedCircle rnd centerX centerY radius color g

/-- The utility `drawThickLine(x1, y1, x2, y2, thickness, color)`. -/
def drawThickLine (x1 y1 x2 y2 thickness : Int) (color : Nat) (g : GfxWorld) :
    Option GfxWorld :=
  forUpTo thickness.toNat (fun i g =>
    forUpTo thickness.toNat (fun j g =>
      gfxCall (TftCall.drawLine
        (x1 + i - Int.tdiv thickness 2) (y1 + j - Int.tdiv thickness 2)
        (x2 + i - Int.tdiv thickness 2) (y2 + j - Int.tdiv thickness 2) color) g) g) g

/-- The ordinate `centerY + (upward ? 1 : -1) * (int)(height * (1 - t * t))` of
the point of the curve at abscissa `x`, with
`t = (float)(x - centerX) / (width/2)`. -/
def curveY (rnd : ℚ → ℚ) (centerX centerY width height : Int) (upward : Bool) (x : Int) :
    Option Int := do
  let t ← fdiv rnd (intToFloat rnd (x - centerX)) (intToFloat rnd (Int.tdiv width 2))
  let v ← floatToInt (fmul rnd (intToFloat rnd height) (fsub rnd 1 (fmul rnd t t)))
  pure (centerY + (if upward then 1 else -1) * v)

/-- The utility `drawCurve(centerX, centerY, width, height, color, upward)`. -/
def drawCurve (rnd : ℚ → ℚ) (centerX centerY width height : Int) (color : Nat)
    (upward : Bool) (g : GfxWorld) : Option GfxWorld :=
  let segments : Int := 20
  let startX := centerX - Int.tdiv width 2
  let segmentWidth := Int.tdiv width segments
  forUpTo 20 (fun i g => do
    let x1 := startX + i * segmentWidth
    let x2 := startX + (i + 1) * segmentWidth
    let y1 ← curveY rnd centerX centerY width height upward x1
    let y2 ← curveY rnd centerX centerY width height upward x2
    drawThickLine x1 y1 x2 y2 3 color g) g

/-- The public `drawEyeHighlight(centerX, centerY)`. -/
def drawEyeHighlight (centerX centerY : Int) (g : GfxWorld) : Option GfxWorld := do
  let g ← gfxCall (TftCall.fillCircle (centerX - 8) (centerY - 8) 6 BMO_WHITE) g
  gfxCall (TftCall.fillCircle (centerX - 5) (centerY - 12) 2 BMO_WHITE) g

/-- The public `drawClosedEye(centerX, centerY, width)`. -/
def drawClosedEye (centerX centerY width : Int) (g : GfxWorld) : Option GfxWorld := do
  let thickness : Int := 4
  let halfWidth := Int.tdiv width 2
  let g ← forUpTo 4 (fun i g =>
    gfxCall (TftCall.drawLine
      (centerX - halfWidth) (centerY + i - Int.tdiv thickness 2)
      (centerX + halfWidth) (centerY + i - Int.tdiv thickness 2) BMO_BLACK) g) g
  let g ← gfxCall (TftCall.fillCircle (centerX - halfWidth) centerY (Int.tdiv thickness 2) BMO_BLACK) g
  gfxCall (TftCall.fillCircle (centerX + halfWidth) centerY (Int.tdiv thickness 2) BMO_BLACK) g

/-- The public `drawEye(centerX, centerY, state, isLeft)`. -/
def drawEye (rnd : ℚ → ℚ) (centerX centerY : Int) (state : EyeState) (_isLeft : Bool)
    (g : GfxWorld) : Option GfxWorld :=
  match state with
  | EyeState.EYES_OPEN => do
    let g ← drawSmoothCircle rnd centerX centerY EYE_RADIUS BMO_BLACK g
    drawEyeHighlight centerX centerY g
  | EyeState.EYES_CLOSED =>
    drawClosedEye centerX centerY (EYE_RADIUS * 2) g
  | EyeState.EYES_HALF_CLOSED => do
    let g ← gfxCall (TftCall.fillEllipse centerX centerY EYE_RADIUS (Int.tdiv EYE_RADIUS 2) BMO_BLACK) g
    drawEyeHighlight centerX (centerY - Int.tdiv EYE_RADIUS 4) g
  | EyeState.EYES_WIDE => do
    let g ← drawSmoothCircle rnd centerX centerY (EYE_RADIUS + 5) BMO_BLACK g
    let g ← drawEyeHighlight centerX centerY g
    gfxCall (TftCall.fillCircle (centerX + 5) (centerY - 5) 3 BMO_WHITE) g

/-- The public `drawEyes(state)`. -/
def drawEyes (rnd : ℚ → ℚ) (state : EyeState) (g : GfxWorld) : Option GfxWorld := do
  let leftEyeX := FACE_CENTER_X - Int.tdiv EYE_SEPARATION 2
  let rightEyeX := FACE_CENTER_X + Int.tdiv EYE_SEPARATION 2
  let eyeY := FACE_CENTER_Y + EYE_Y_OFFSET
  let g ← drawEye rnd leftEyeX eyeY state true g
  drawEye rnd rightEyeX eyeY state false g

/-- The public `drawHappyMouth(centerX, centerY)`. -/
def drawHappyMouth (rnd : ℚ → ℚ) (centerX centerY : Int) (g : GfxWorld) : Option GfxWorld :=
  drawCurve rnd centerX centerY MOUTH_WIDTH MOUTH_HEIGHT BMO_BLACK true g

/-- The public `drawSurprisedMouth(centerX, centerY)`. -/
def drawSurprisedMouth (centerX centerY : Int) (g : GfxWorld) : Option GfxWorld := do
  let g ← gfxCall (TftCall.fillEllipse centerX centerY 15 20 BMO_BLACK) g
  gfxCall (TftCall.fillEllipse centerX centerY 10 15 BMO_TEAL) g

/-- The public `drawSleepyMouth(centerX, centerY)`. -/
def drawSleepyMouth (centerX centerY : Int) (g : GfxWorld) : Option GfxWorld :=
  drawThickLine (centerX - 20) centerY (centerX + 20) centerY 3 BMO_BLACK g

/-- The public `drawExcitedMouth(centerX, centerY)`. -/
def drawExcitedMouth (rnd : ℚ → ℚ) (centerX centerY : Int) (g : GfxWorld) : Option GfxWorld := do
  let g ← drawCurve rnd centerX centerY (MOUTH_WIDTH + 20) (MOUTH_HEIGHT + 10) BMO_BLACK true g
  forUpTo 4 (fun i g =>
    let toothX := centerX - 20 + (i * 13)
    gfxCall (TftCall.fillRect toothX (centerY + 8) 3 8 BMO_WHITE) g) g

/-- The public `drawConfusedMouth(centerX, centerY)`. -/
def drawConfusedMouth (centerX centerY : Int) (g : GfxWorld) : Option GfxWorld :=
  let segments : Int := 8
  let segmentWidth := Int.tdiv MOUTH_WIDTH segments
  forUpTo 8 (fun i g =>
    let x1 := centerX - Int.tdiv MOUTH_WIDTH 2 + (i * segmentWidth)
    let x2 := x1 + segmentWidth
    let y1 := centerY + (if Int.tmod i 2 = 0 then -5 else 5)
    let y2 := centerY + (if Int.tmod i 2 = 0 then 5 else -5)
    drawThickLine x1 y1 x2 y2 2 BMO_BLACK g) g

/-- The public `drawMouth(expression)`. -/
def drawMouth (rnd : ℚ → ℚ) (expression : BMOExpression) (g : GfxWorld) : Option GfxWorld :=
  let mouthX := FACE_CENTER_X
  let mouthY := FACE_CENTER_Y + MOUTH_Y_OFFSET
  match expression with
  | BMOExpression.EXPRESSION_HAPPY => drawHappyMouth rnd mouthX mouthY g
  | BMOExpression.EXPRESSION_SURPRISED => drawSurprisedMouth mouthX mouthY g
  | BMOExpression.EXPRESSION_SLEEPY => drawSleepyMouth mouthX mouthY g
  | BMOExpression.EXPRESSION_EXCITED => drawExcitedMouth rnd mouthX mouthY g
  | BMOExpression.EXPRESSION_CONFUSED => drawConfusedMouth mouthX mouthY g
  | BMOExpression.EXPRESSION_COUNT => drawHappyMouth rnd mouthX mouthY g

/-- The public `drawBMOFace(expression, eyeState)`. -/
def drawBMOFace (rnd : ℚ → ℚ) (expression : BMOExpression) (eyeState : EyeState)
    (g : GfxWorld) : Option GfxWorld :=
  if !g.graphics.initialized then some g else do
  let g := gfxEmit (HwEvent.serialPrintf "Drawing BMO face - Expression: %d, Eyes: %d\n"
    [PrintfArg.num expression.toInt, PrintfArg.num eyeState.toInt]) g
  let g := { g with graphics := { g.graphics with currentExpression := expression } }
  let g := { g with graphics := { g.graphics with currentEyeState := eyeState } }
  let g ← startFastDraw g
  let g ← drawBackground rnd g
  let g ← drawFrame g
  let g ← drawEyes rnd eyeState g
  let g ← drawMouth rnd expression g
  endFastDraw g

/-- The public `animateBlink()`. -/
def animateBlink (rnd : ℚ → ℚ) (g : GfxWorld) : Option GfxWorld :=
  if !g.graphics.initialized then some g else do
  let g ← drawEyes rnd EyeState.EYES_CLOSED g
  let g := gfxEmit (HwEvent.delay BLINK_DURATION) g
  let g ← drawEyes rnd EyeState.EYES_OPEN g
  pure (gfxEmit (HwEvent.serialPrintln "Blink animation complete") g)

end BMOGraphics

/-- The public `end()` of the renderer. -/
def BMOGraphics.end (g : GfxWorld) : GfxWorld :=
  if g.graphics.initialized then
    let g := { g with graphics := { g.graphics with tft := none } }
    let g := { g with graphics := { g.graphics with initialized := false } }
    let g := { g with g_bmoGraphics := none }
    gfxEmit (HwEvent.serialPrintln "BMO Graphics shutdown complete") g
  else g

/-! ## Sequences of public calls on the display manager -/

/-- One call of a public operation of `BMODisplay`, with the answers of the
hardware during that call where the operation reads any. -/
inductive DisplayOp
  | callBegin (self : Nat) (r : PanelResponses)
  | callEnd
  | callSetBacklight (brightness : Nat)
  | callSleep
  | callWakeup
  | callReset (r : PanelResponses)
  | callClear (color : Nat)
  | callClearError
  deriving DecidableEq, Repr

/-- The environment after one public call; `none` when the call runs into a
null dereference. -/
def applyOp : DisplayOp → World → Option World
  | DisplayOp.callBegin self r, w => (BMODisplay.begin self r w).map Prod.snd
  | DisplayOp.callEnd, w => some (BMODisplay.end w)
  | DisplayOp.callSetBacklight v, w => some (BMODisplay.setBacklight v w)
  | DisplayOp.callSleep, w => BMODisplay.sleep w
  | DisplayOp.callWakeup, w => BMODisplay.wakeup w
  | DisplayOp.callReset r, w => BMODisplay.reset r w
  | DisplayOp.callClear c, w => some (BMODisplay.clear c w)
  | DisplayOp.callClearError, w => some (BMODisplay.clearError w)

/-- The environment after a sequence of public calls, first call first. -/
def runOps : List DisplayOp → World → Option World
  | [], w => some w
  | op :: ops, w => (applyOp op w).bind (runOps ops)

/-! ## What the theorems on drawing assume of the rounding -/

/-- The two properties of the rounding of single precision that the theorems
on drawing use: it is monotone, and it is exact on every dyadic rational
`m / 2^j` with `|m| ≤ 2^24` and `j ≤ 32` (such a number has a significand of at
most 24 bits and an exponent well inside the range of the format). -/
structure FloatRounding (rnd : ℚ → ℚ) : Prop where
  mono : ∀ a b : ℚ, a ≤ b → rnd a ≤ rnd b
  exact : ∀ (m : Int) (j : Nat), -16777216 ≤ m → m ≤ 16777216 → j ≤ 32 →
    rnd ((m : ℚ) / 2 ^ j) = (m : ℚ) / 2 ^ j

/-- The renderer `g` after the effects `evs` have been issued. -/
def gfxAppend (g : GfxWorld) (evs : List HwEvent) : GfxWorld :=
  { g with trace := g.trace ++ evs }

/-- On every renderer that holds a handle, `f` returns, issues exactly the
effects `evs` and changes nothing else. -/
def IssuesOnBound (f : GfxWorld → Option GfxWorld) (evs : List HwEvent) : Prop :=
  ∀ g : GfxWorld, g.graphics.tft ≠ none → f g = some (gfxAppend g evs)

/-- None of the effects opens or closes a batched write. -/
def DrawCallsOnly (evs : List HwEvent) : Prop :=
  ∀ ev ∈ evs, ev ≠ HwEvent.tft TftCall.startWrite ∧ ev ≠ HwEvent.tft TftCall.endWrite

/-- A function that issues the same draw calls on every renderer holding a
handle. -/
def Draws (f : GfxWorld → Option GfxWorld) : Prop :=
  ∃ evs, DrawCallsOnly evs ∧ IssuesOnBound f evs

/-- A sample bound renderer at address `1`, bound to handle `5`. -/
def BMOGraphics.boundWorld : GfxWorld :=
  BMOGraphics.begin 1 (some 5) BMOGraphics.newWorld

/-! ## The parabola of the happy mouth, in exact arithmetic -/

/-- The ordinate of the happy mouth centred at `(cx, cy)` at abscissa `x`, as
the specification words it, in exact rational arithmetic:
`cy + trunc(20 * (1 - t*t))` with `t = (x - cx) / 30`. -/
def parabolaY (cx cy x : Int) : Int :=
  cy + truncate (20 * (1 - (((x - cx : Int) : ℚ) / 30) * (((x - cx : Int) : ℚ) / 30)))

/-- The `j`-th of the 21 points of the happy mouth centred at `(cx, cy)`:
abscissa `cx - 30 + 3 * j`, ordinate by `parabolaY`. -/
def happyMouthPoint (cx cy : Int) (j : Nat) : Int × Int :=
  (cx - 30 + 3 * (j : Int), parabolaY cx cy (cx - 30 + 3 * (j : Int)))

/-! ## Frame lemmas for the display manager -/

@[simp] theorem emit_display (e : HwEvent) (w : World) : (emit e w).display = w.display := rfl

@[simp] theorem emit_global (e : HwEvent) (w : World) :
    (emit e w).g_bmoDisplay = w.g_bmoDisplay := rfl

@[simp] theorem emit_trace (e : HwEvent) (w : World) : (emit e w).trace = w.trace ++ [e] := rfl

theorem tftCall_of_handle {w : World} {p : Nat} (h : w.display.tft = some p) (c : TftCall) :
    tftCall c w = some (emit (HwEvent.tft c) w) := by
  simp [tftCall, h]

theorem tftCall_of_null {w : World} (h : w.display.tft = none) (c : TftCall) :
    tftCall c w = none := by
  simp [tftCall, h]

namespace BMODisplay

theorem tftCall_eq (c : TftCall) (w : World) :
    tftCall c w = if w.display.tft.isSome then some (emit (HwEvent.tft c) w) else none := by
  unfold tftCall
  cases w.display.tft <;> rfl

theorem detectController_of_handle (r : PanelResponses) {w : World} {p : Nat}
    (h : w.display.tft = some p) :
    ∃ w', detectController r w = some (true, w') ∧
      w'.display = { w.display with controller := classify (readDisplayId r) } ∧
      w'.g_bmoDisplay = w.g_bmoDisplay := by
  simp only [detectController, classify]
  split_ifs <;> simp [tftCall_eq, h]

theorem configureDisplay_of_handle (r : PanelResponses) {w : World} {p : Nat}
    (h : w.display.tft = some p) :
    ∃ w', configureDisplay r w = some (true, w') ∧ w'.display = w.display ∧
      w'.g_bmoDisplay = w.g_bmoDisplay := by
  simp only [configureDisplay]
  cases hc : w.display.controller <;> split_ifs <;>
    simp [tftCall_eq, h, hc, initILI9341, initST7789]

theorem testDisplay_of_handle (r : PanelResponses) {w : World} {p : Nat}
    (h : w.display.tft = some p) :
    ∃ w', testDisplay r w = some (statusRegOk r, w') ∧ w'.display = w.display ∧
      w'.g_bmoDisplay = w.g_bmoDisplay := by
  simp only [testDisplay, testSPIConnection, testDisplayMemory, statusRegOk]
  by_cases hs : r.statusReg % 256 ≠ 0x00 ∧ r.statusReg % 256 ≠ 0xFF <;>
    simp [tftCall_eq, h, hs]

/-- What `begin()` does once the handle `p` exists: it returns the verdict of
the SPI self-test; a passed test ends in the READY state, a failed one records
`DISPLAY_ERROR_INIT` and keeps every other field but the controller kind. -/
theorem beginInit_of_handle (self : Nat) (r : PanelResponses) {w : World} {p : Nat}
    (h : w.display.tft = some p) :
    ∃ w', beginInit self r w = some (statusRegOk r, w') ∧
      (statusRegOk r = true →
        w'.display =
          { tft := some p
            status := DisplayStatus.DISPLAY_OK
            controller := classify (readDisplayId r)
            backlightLevel := 255
            lastError := w.display.lastError
            initialized := true } ∧
        w'.g_bmoDisplay = some self) ∧
      (statusRegOk r = false →
        w'.display =
          { w.display with
            status := DisplayStatus.DISPLAY_ERROR_INIT
            controller := classify (readDisplayId r)
            lastError := some "Display test failed" } ∧
        w'.g_bmoDisplay = w.g_bmoDisplay) := by
  have h0 : (emit (HwEvent.tft TftCall.init)
      (initializeSPI (initializeBacklight w)).2).display.tft = some p := by
    simpa [initializeSPI, initializeBacklight] using h
  obtain ⟨w1, e1, d1, g1⟩ := detectController_of_handle r h0
  have h1 : w1.display.tft = some p := by rw [d1]; simpa [initializeSPI, initializeBacklight] using h
  obtain ⟨w2, e2, d2, g2⟩ := configureDisplay_of_handle r h1
  have h2 : w2.display.tft = some p := by rw [d2]; exact h1
  obtain ⟨w3, e3, d3, g3⟩ := testDisplay_of_handle r h2
  have hspi : initializeSPI (initializeBacklight w) =
      (true, (initializeSPI (initializeBacklight w)).2) := rfl
  have hinit : tftCall TftCall.init (initializeSPI (initializeBacklight w)).2 =
      some (emit (HwEvent.tft TftCall.init) (initializeSPI (initializeBacklight w)).2) := by
    rw [tftCall_eq]; simp [initializeSPI, initializeBacklight, h]
  cases hs : statusRegOk r
  · rw [hs] at e3
    refine ⟨setError DisplayStatus.DISPLAY_ERROR_INIT "Display test failed" w3, ?_, ?_, ?_⟩
    · simp only [beginInit]
      rw [hspi]
      simp [hinit, e1, e2, e3]
    · intro hc; cases hc
    · intro _
      simp [setError, d3, d2, d1, g3, g2, g1, initializeSPI, initializeBacklight, h]
  · rw [hs] at e3
    refine ⟨printDisplayInfo (emit (HwEvent.serialPrintln "Display initialized successfully!")
      { display := { (setBacklight 255 w3).display with
          initialized := true, status := DisplayStatus.DISPLAY_OK }
        g_bmoDisplay := some self
        trace := (setBacklight 255 w3).trace }), ?_, ?_, ?_⟩
    · simp only [beginInit]
      rw [hspi]
      simp [hinit, e1, e2, e3]
    · intro _
      simp [printDisplayInfo, setBacklight, d3, d2, d1, g3, g2, g1, initializeSPI,
        initializeBacklight, h]
    · intro hc; cases hc

theorem begin_alloc_failure (self : Nat) (r : PanelResponses) {w : World}
    (h : w.display.tft = none) (ha : r.alloc = none) :
    ∃ w', begin self r w = some (false, w') ∧
      w'.display =
        { w.display with
          status := DisplayStatus.DISPLAY_ERROR_MEMORY
          lastError := some "Failed to allocate TFT object" } ∧
      w'.g_bmoDisplay = w.g_bmoDisplay := by
  simp [begin, h, ha, setError]

theorem begin_of_handle (self : Nat) (r : PanelResponses) {w : World} {p : Nat}
    (h : (w.display.tft <|> r.alloc) = some p) :
    ∃ w', begin self r w = some (statusRegOk r, w') ∧
      (statusRegOk r = true →
        w'.display =
          { tft := some p
            status := DisplayStatus.DISPLAY_OK
            controller := classify (readDisplayId r)
            backlightLevel := 255
            lastError := w.display.lastError
            initialized := true } ∧
        w'.g_bmoDisplay = some self) ∧
      (statusRegOk r = false →
        w'.display =
          { w.display with
            tft := some p
            status := DisplayStatus.DISPLAY_ERROR_INIT
            controller := classify (readDisplayId r)
            lastError := some "Display test failed" } ∧
        w'.g_bmoDisplay = w.g_bmoDisplay) := by
  cases ht : w.display.tft with
  | some q =>
    have hq : q = p := by simpa [ht] using h
    subst hq
    have h0 : (emit (HwEvent.serialPrintln "Initializing BMO Display...") w).display.tft
        = some q := by simpa using ht
    obtain ⟨w', e, hok, hfail⟩ := beginInit_of_handle self r h0
    refine ⟨w', ?_, ?_, ?_⟩
    · simp [begin, ht, e]
    · simpa using hok
    · intro hs
      have := hfail hs
      simpa [ht] using this
  | none =>
    have ha : r.alloc = some p := by simpa [ht] using h
    have h0 : ({ emit (HwEvent.newTft r.alloc)
        (emit (HwEvent.serialPrintln "Initializing BMO Display...") w) with
        display := { w.display with tft := r.alloc } } : World).display.tft = some p := by
      simpa using ha
    obtain ⟨w', e, hok, hfail⟩ := beginInit_of_handle self r h0
    refine ⟨w', ?_, ?_, ?_⟩
    · simp [begin, ht, ha] at e ⊢
      exact e
    · simpa [ha] using hok
    · intro hs
      have := hfail hs
      simpa [ht, ha] using this

theorem readDisplayId_eq (r : PanelResponses) (id : Nat) (hid : id < 2 ^ 24)
    (h1 : r.idByte1 = id / 65536) (h2 : r.idByte2 = id / 256 % 256)
    (h3 : r.idByte3 = id % 256) : readDisplayId r = id := by
  have e1 : ∀ a b : Nat, b < 256 → (a <<< 8) ||| b = a * 256 + b := by
    intro a b hb
    have := Nat.mul_add_lt_is_or (i := 8) (b := b) (by simpa using hb) a
    rw [Nat.shiftLeft_eq, Nat.mul_comm a (2 ^ 8), ← this]
  have e2 : ∀ a b : Nat, a * 256 < 2 ^ 32 → b < 256 →
      ((a <<< 8) % 2 ^ 32) ||| b = a * 256 + b := by
    intro a b ha hb
    have hs : a <<< 8 = a * 256 := by rw [Nat.shiftLeft_eq]
    rw [Nat.mod_eq_of_lt (by rw [hs]; exact ha), e1 a b hb]
  unfold readDisplayId
  simp only [h1, h2, h3]
  have hb1 : id / 65536 % 256 = id / 65536 := Nat.mod_eq_of_lt (by omega)
  rw [hb1, Nat.mod_mod, Nat.mod_mod]
  rw [e2 (id / 65536) (id / 256 % 256) (by omega) (Nat.mod_lt _ (by norm_num))]
  rw [e2 _ (id % 256) (by omega) (Nat.mod_lt _ (by norm_num))]
  omega

theorem sleep_of_ready {w : World} {p : Nat}
    (hi : w.display.initialized = true) (ht : w.display.tft = some p) :
    sleep w = some (emit (HwEvent.serialPrintln "Display entered sleep mode")
      (emit (HwEvent.delay 120) (emit (HwEvent.tft (TftCall.writecommand 0x10))
        (backlightOff w)))) := by
  simp [sleep, hi, tftCall_eq, backlightOff, setBacklight, ht]

theorem wakeup_of_ready {w : World} {p : Nat}
    (hi : w.display.initialized = true) (ht : w.display.tft = some p) :
    wakeup w = some (emit (HwEvent.serialPrintln "Display woke up from sleep")
      (setBacklight w.display.backlightLevel
        (emit (HwEvent.delay 120) (emit (HwEvent.tft (TftCall.writecommand 0x11)) w)))) := by
  simp [wakeup, hi, tftCall_eq, ht]

/-- When `begin()` returns false the recorded status is `DISPLAY_ERROR_MEMORY`
or `DISPLAY_ERROR_INIT`. -/
theorem begin_failure_status (self : Nat) (r : PanelResponses) (w : World) :
    ∃ b w', begin self r w = some (b, w') ∧
      (b = false →
        w'.display.status = DisplayStatus.DISPLAY_ERROR_MEMORY ∨
        w'.display.status = DisplayStatus.DISPLAY_ERROR_INIT) := by
  cases hp : (w.display.tft <|> r.alloc) with
  | none =>
    have ht : w.display.tft = none := by
      cases h : w.display.tft <;> simp [h] at hp ⊢
    have ha : r.alloc = none := by simpa [ht] using hp
    obtain ⟨w', e, d, _⟩ := begin_alloc_failure self r ht ha
    exact ⟨false, w', e, fun _ => Or.inl (by simp [d])⟩
  | some p =>
    obtain ⟨w', e, _, hfail⟩ := begin_of_handle self r hp
    exact ⟨statusRegOk r, w', e, fun hs => Or.inr (by simp [(hfail hs).1])⟩

end BMODisplay

/-! ## Claims about the display manager -/

section DisplayClaims

open BMODisplay

/-- C1 (as amended): `begin()` always returns, and when it returns false the
handle is null afterwards exactly on the allocation-failure path (no handle was
held and `new` returned null, status `DISPLAY_ERROR_MEMORY`); on the other
failure path, the failed self-test (status `DISPLAY_ERROR_INIT`), the handle
that was held before the call or was just allocated is still held, non-null. -/
theorem begin_failure_keeps_handle (self : Nat) (r : PanelResponses) (w : World) :
    ∃ b w', BMODisplay.begin self r w = some (b, w') ∧
      (b = false →
        (w.display.tft = none ∧ r.alloc = none ∧
          w'.display.status = DisplayStatus.DISPLAY_ERROR_MEMORY ∧ w'.display.tft = none) ∨
        (∃ p, (w.display.tft <|> r.alloc) = some p ∧
          w'.display.status = DisplayStatus.DISPLAY_ERROR_INIT ∧ w'.display.tft = some p)) := by
  cases hp : (w.display.tft <|> r.alloc) with
  | none =>
    have ht : w.display.tft = none := by
      cases h : w.display.tft <;> simp [h] at hp ⊢
    have ha : r.alloc = none := by simpa [ht] using hp
    obtain ⟨w', e, d, _⟩ := begin_alloc_failure self r ht ha
    exact ⟨false, w', e, fun _ => Or.inl ⟨ht, ha, by simp [d], by simp [d, ht]⟩⟩
  | some p =>
    obtain ⟨w', e, _, hfail⟩ := begin_of_handle self r hp
    refine ⟨statusRegOk r, w', e, fun hs => Or.inr ⟨p, rfl, ?_, ?_⟩⟩
    · simp [(hfail hs).1]
    · simp [(hfail hs).1]

/-- C1, witness: a fresh manager whose panel answers `0x00` on the status
register; `begin()` returns false with `DISPLAY_ERROR_INIT` and keeps handle `7`. -/
theorem begin_failure_keeps_handle_witness :
    ∃ w', BMODisplay.begin 1 silentPanel BMODisplay.newWorld = some (false, w') ∧
      w'.display.status = DisplayStatus.DISPLAY_ERROR_INIT ∧ w'.display.tft = some 7 := by
  obtain ⟨b, w', e, h⟩ := begin_failure_keeps_handle 1 silentPanel BMODisplay.newWorld
  have hb : (BMODisplay.begin 1 silentPanel BMODisplay.newWorld).map Prod.fst = some false := by
    decide
  rw [e] at hb
  have hb' : b = false := by simpa using hb
  subst hb'
  refine ⟨w', e, ?_⟩
  rcases h rfl with ⟨_, ha, _, _⟩ | ⟨p, hp, hs, ht⟩
  · exact absurd ha (by decide)
  · have : p = 7 := by
      have h7 : (BMODisplay.newWorld.display.tft <|> silentPanel.alloc) = some 7 := by decide
      rw [h7] at hp
      exact (Option.some.inj hp).symm
    subst this
    exact ⟨hs, ht⟩

/-- C1, counterexample to the claim as stated: on a fresh manager, with a
successful allocation (address `7`) and a status register reading `0x00`,
`begin()` returns false and the handle is not null afterwards. -/
theorem begin_failure_handle_not_null :
    (BMODisplay.begin 1 silentPanel BMODisplay.newWorld).map
      (fun res => (res.1, res.2.display.tft, res.2.display.initialized)) =
      some (false, some 7, false) := by
  decide

/-- C2 (code defect): on every initialized manager holding a handle, whatever
its backlight level, `sleep()` followed by `wakeup()` both return, and
afterwards `getBacklight()` is `0` and the PWM duty last written to the
backlight pin is `0`: `sleep()` overwrites the stored level through
`backlightOff()`, so `wakeup()` restores `0` and not the previous level. -/
theorem sleep_wakeup_backlight_zero (w : World) (p : Nat)
    (hi : w.display.initialized = true) (ht : w.display.tft = some p) :
    ∃ w1 w2, BMODisplay.sleep w = some w1 ∧ BMODisplay.wakeup w1 = some w2 ∧
      BMODisplay.getBacklight w2.display = 0 ∧
      BMODisplay.lastBacklightPwm w2.trace = some 0 := by
  have h1 := sleep_of_ready hi ht
  have hi1 : (emit (HwEvent.serialPrintln "Display entered sleep mode")
      (emit (HwEvent.delay 120) (emit (HwEvent.tft (TftCall.writecommand 0x10))
        (BMODisplay.backlightOff w)))).display.initialized = true := by
    simpa [BMODisplay.backlightOff, BMODisplay.setBacklight] using hi
  have ht1 : (emit (HwEvent.serialPrintln "Display entered sleep mode")
      (emit (HwEvent.delay 120) (emit (HwEvent.tft (TftCall.writecommand 0x10))
        (BMODisplay.backlightOff w)))).display.tft = some p := by
    simpa [BMODisplay.backlightOff, BMODisplay.setBacklight] using ht
  refine ⟨_, _, h1, wakeup_of_ready hi1 ht1, ?_, ?_⟩
  · simp [BMODisplay.getBacklight, BMODisplay.backlightOff, BMODisplay.setBacklight]
  · simp [BMODisplay.lastBacklightPwm, BMODisplay.backlightOff, BMODisplay.setBacklight,
      List.foldl_append]

/-- C2, witness: the READY manager with backlight level `200`; after `sleep()`
and `wakeup()` the level is `0`, not `200`. -/
theorem sleep_wakeup_backlight_zero_witness :
    ∃ w1 w2, BMODisplay.sleep BMODisplay.readyWorld = some w1 ∧
      BMODisplay.wakeup w1 = some w2 ∧
      BMODisplay.getBacklight BMODisplay.readyWorld.display = 200 ∧
      BMODisplay.getBacklight w2.display = 0 ∧
      BMODisplay.lastBacklightPwm w2.trace = some 0 := by
  obtain ⟨w1, w2, h1, h2, h3, h4⟩ :=
    sleep_wakeup_backlight_zero BMODisplay.readyWorld 7 rfl rfl
  exact ⟨w1, w2, h1, h2, rfl, h3, h4⟩

/-- C3: for every `v` in `0..255` and every manager state, initialized or not,
`getBacklight()` after `setBacklight(v)` is `v`, and `setBacklight` leaves the
status, the controller kind, the handle, the initialized flag and the last
error as they were. -/
theorem setBacklight_getBacklight (v : Nat) (hv : v ≤ 255) (w : World) :
    BMODisplay.getBacklight (BMODisplay.setBacklight v w).display = v ∧
      (BMODisplay.setBacklight v w).display.status = w.display.status ∧
      (BMODisplay.setBacklight v w).display.controller = w.display.controller ∧
      (BMODisplay.setBacklight v w).display.tft = w.display.tft ∧
      (BMODisplay.setBacklight v w).display.initialized = w.display.initialized ∧
      (BMODisplay.setBacklight v w).display.lastError = w.display.lastError := by
  have hm : v % 256 = v := Nat.mod_eq_of_lt (by omega)
  simp [BMODisplay.getBacklight, BMODisplay.setBacklight, hm]

/-- C3, witness: `setBacklight(128)` on a manager that was never initialized. -/
theorem setBacklight_getBacklight_witness :
    BMODisplay.getBacklight (BMODisplay.setBacklight 128 BMODisplay.newWorld).display = 128 ∧
      (BMODisplay.setBacklight 128 BMODisplay.newWorld).display.initialized = false :=
  ⟨(setBacklight_getBacklight 128 (by decide) BMODisplay.newWorld).1,
    (setBacklight_getBacklight 128 (by decide) BMODisplay.newWorld).2.2.2.2.1⟩

/-- C4: `end()` is idempotent on the whole environment (object, global pointer
and issued effects), and on a manager that is not initialized it changes
nothing and issues nothing. -/
theorem end_idempotent (w : World) :
    BMODisplay.end (BMODisplay.end w) = BMODisplay.end w ∧
      (w.display.initialized = false → BMODisplay.end w = w) := by
  constructor
  · cases hi : w.display.initialized
    · simp [BMODisplay.end, hi]
    · cases ht : w.display.tft <;>
        simp [BMODisplay.end, hi, ht, BMODisplay.backlightOff, BMODisplay.setBacklight]
  · intro hi
    simp [BMODisplay.end, hi]

/-- C4, witness: `end()` on a freshly constructed manager changes nothing, and
a second `end()` on the READY manager adds nothing to the first. -/
theorem end_idempotent_witness :
    BMODisplay.end BMODisplay.newWorld = BMODisplay.newWorld ∧
      BMODisplay.end (BMODisplay.end BMODisplay.readyWorld) =
        BMODisplay.end BMODisplay.readyWorld :=
  ⟨(end_idempotent BMODisplay.newWorld).2 rfl, (end_idempotent BMODisplay.readyWorld).1⟩

/-- C5: for every 24-bit ID delivered by the three register reads,
`detectController()` (on a manager holding a handle) returns true and sets the
controller kind to ILI9341 when the low 16 bits are `0x9341`, to ST7789 when
the low 16 bits are `0x7789` or the low byte is `0x85`, and to ILI9341 for
every other ID; a `begin()` that reads this ID and has a handle to work with
leaves the controller kind so classified.  And `begin()`, from every state and
for every answer of the hardware, returns, and never returns false with
`DISPLAY_ERROR_CONTROLLER`. -/
theorem detectController_classifies (id : Nat) (hid : id < 2 ^ 24) (r : PanelResponses)
    (h1 : r.idByte1 = id / 65536) (h2 : r.idByte2 = id / 256 % 256)
    (h3 : r.idByte3 = id % 256) (w : World) (p : Nat) (ht : w.display.tft = some p) :
    (∃ w', BMODisplay.detectController r w = some (true, w') ∧
      w'.display.controller =
        (if id % 65536 = 0x9341 then DisplayController.CONTROLLER_ILI9341
         else if id % 65536 = 0x7789 ∨ id % 256 = 0x85 then DisplayController.CONTROLLER_ST7789
         else DisplayController.CONTROLLER_ILI9341)) ∧
    (∀ (self : Nat) (w0 : World) (q : Nat), (w0.display.tft <|> r.alloc) = some q →
      ∃ b w', BMODisplay.begin self r w0 = some (b, w') ∧
        w'.display.controller =
          (if id % 65536 = 0x9341 then DisplayController.CONTROLLER_ILI9341
           else if id % 65536 = 0x7789 ∨ id % 256 = 0x85 then
             DisplayController.CONTROLLER_ST7789
           else DisplayController.CONTROLLER_ILI9341)) ∧
    (∀ (self : Nat) (r0 : PanelResponses) (w0 : World),
      ∃ b w', BMODisplay.begin self r0 w0 = some (b, w') ∧
        (b = false → w'.display.status ≠ DisplayStatus.DISPLAY_ERROR_CONTROLLER)) := by
  have m16 : id &&& 0xFFFF = id % 65536 := Nat.and_pow_two_sub_one_eq_mod id 16
  have m8 : id &&& 0xFF = id % 256 := Nat.and_pow_two_sub_one_eq_mod id 8
  have hk : BMODisplay.classify (BMODisplay.readDisplayId r) =
      (if id % 65536 = 0x9341 then DisplayController.CONTROLLER_ILI9341
       else if id % 65536 = 0x7789 ∨ id % 256 = 0x85 then DisplayController.CONTROLLER_ST7789
       else DisplayController.CONTROLLER_ILI9341) := by
    rw [readDisplayId_eq r id hid h1 h2 h3]
    simp only [BMODisplay.classify, m16, m8]
  refine ⟨?_, ?_, ?_⟩
  · obtain ⟨w', e, d, _⟩ := detectController_of_handle r ht
    exact ⟨w', e, by rw [d, ← hk]⟩
  · intro self w0 q hq
    obtain ⟨w', e, hok, hfail⟩ := begin_of_handle self r hq
    refine ⟨_, w', e, ?_⟩
    rw [← hk]
    cases hs : BMODisplay.statusRegOk r
    · rw [(hfail hs).1]
    · rw [(hok hs).1]
  · intro self r0 w0
    obtain ⟨b, w', e, h⟩ := BMODisplay.begin_failure_status self r0 w0
    refine ⟨b, w', e, fun hb => ?_⟩
    rcases h hb with hs | hs <;> simp [hs]

/-- C5, witness: the ID `0x009341` read on the READY manager selects ILI9341. -/
theorem detectController_classifies_witness :
    ∃ w', BMODisplay.detectController BMODisplay.healthyPanel BMODisplay.readyWorld =
        some (true, w') ∧
      w'.display.controller = DisplayController.CONTROLLER_ILI9341 :=
  (detectController_classifies 0x009341 (by decide) BMODisplay.healthyPanel
    (by decide) (by decide) (by decide) BMODisplay.readyWorld 7 rfl).1

end DisplayClaims

/-! ## Lemmas on the colour macros and the float conversions -/

theorem testBit_248 : ∀ j, j < 19 → Nat.testBit 248 j = decide (3 ≤ j ∧ j < 8) := by decide

theorem testBit_252 : ∀ j, j < 19 → Nat.testBit 252 j = decide (2 ≤ j ∧ j < 8) := by decide

theorem testBit_of_lt_u16 {c : Nat} (h : c < 65536) {j : Nat} (hj : 16 ≤ j) :
    c.testBit j = false :=
  Nat.testBit_lt_two_pow (lt_of_lt_of_le h (by
    calc 65536 = 2 ^ 16 := by norm_num
      _ ≤ 2 ^ j := Nat.pow_le_pow_right (by norm_num) hj))

/-- Extracting the three channels and packing them again gives the colour back. -/
theorem RGB565_extract (c : Nat) (h : c < 65536) :
    RGB565 (RED_FROM_565 c) (GREEN_FROM_565 c) (BLUE_FROM_565 c) = c := by
  apply Nat.eq_of_testBit_eq
  intro i
  unfold RGB565 RED_FROM_565 GREEN_FROM_565 BLUE_FROM_565
  by_cases hi : i < 16
  · interval_cases i <;>
      simp [Nat.testBit_or, Nat.testBit_and, Nat.testBit_shiftLeft, Nat.testBit_shiftRight,
        testBit_248, testBit_252]
  · have h1 : ∀ j, i ≤ j → c.testBit j = false :=
      fun j hj => testBit_of_lt_u16 h (by omega)
    simp only [Nat.testBit_or, Nat.testBit_and, Nat.testBit_shiftLeft, Nat.testBit_shiftRight]
    rw [h1 i le_rfl, h1 (8 + (i - 8)) (by omega), h1 (3 + (i - 3)) (by omega),
      h1 (3 + i - 3) (by omega)]
    simp

theorem RED_FROM_565_le (c : Nat) : RED_FROM_565 c ≤ 248 := Nat.and_le_right

theorem GREEN_FROM_565_le (c : Nat) : GREEN_FROM_565 c ≤ 252 := Nat.and_le_right

theorem BLUE_FROM_565_le (c : Nat) : BLUE_FROM_565 c ≤ 248 := Nat.and_le_right

theorem truncate_intCast (n : Int) : truncate (n : ℚ) = n := by
  simp [truncate]

/-- The conversion to `uint8_t` of a whole number that fits 32 bits keeps its
residue modulo `256`. -/
theorem floatToUint8_intCast (n : Int) (h1 : -2147483648 ≤ n) (h2 : n ≤ 2147483647) :
    floatToUint8 (n : ℚ) = some (n % 256).toNat := by
  unfold floatToUint8
  rw [truncate_intCast, if_pos ⟨h1, h2⟩]

theorem floatToUint8_natCast (n : Nat) (h : n ≤ 255) : floatToUint8 ((n : Int) : ℚ) = some n := by
  rw [floatToUint8_intCast _ (by omega) (by omega)]
  congr 1
  omega

theorem floatToUint8_zero : floatToUint8 0 = some 0 := by
  simpa using floatToUint8_natCast 0 (by decide)

theorem RED_FROM_565_mod (c : Nat) : RED_FROM_565 c % 256 = RED_FROM_565 c :=
  Nat.mod_eq_of_lt (lt_of_le_of_lt (RED_FROM_565_le c) (by decide))

theorem GREEN_FROM_565_mod (c : Nat) : GREEN_FROM_565 c % 256 = GREEN_FROM_565 c :=
  Nat.mod_eq_of_lt (lt_of_le_of_lt (GREEN_FROM_565_le c) (by decide))

theorem BLUE_FROM_565_mod (c : Nat) : BLUE_FROM_565 c % 256 = BLUE_FROM_565 c :=
  Nat.mod_eq_of_lt (lt_of_le_of_lt (BLUE_FROM_565_le c) (by decide))

/-- Repacking the extracted channels of a 16-bit colour, as the colour
utilities do on their way out, gives the colour back. -/
theorem repack_extract (c : Nat) (h : c < 65536) :
    RGB565 (RED_FROM_565 c) (GREEN_FROM_565 c) (BLUE_FROM_565 c) % 65536 = c := by
  rw [RGB565_extract c h, Nat.mod_eq_of_lt h]

theorem ExactOnBytes.natCast {rnd : ℚ → ℚ} (hr : ExactOnBytes rnd) (n : Nat) (h : n ≤ 255) :
    rnd (n : ℚ) = (n : ℚ) := by
  have := hr (n : Int) (by omega) (by exact_mod_cast h)
  simpa using this

theorem ExactOnBytes.zero {rnd : ℚ → ℚ} (hr : ExactOnBytes rnd) : rnd 0 = 0 := by
  simpa using hr.natCast 0 (by decide)

theorem ExactOnBytes.one {rnd : ℚ → ℚ} (hr : ExactOnBytes rnd) : rnd 1 = 1 := by
  simpa using hr.natCast 1 (by decide)

theorem floatToUint8_natCast_rat (n : Nat) (h : n ≤ 255) : floatToUint8 (n : ℚ) = some n := by
  simpa using floatToUint8_natCast n h

theorem exactOnBytes_id : ExactOnBytes id := fun _ _ _ => rfl

/-- C7: for all 16-bit colours `c1`, `c2` and every ratio in `[0, 1]`,
`blendColors(c1, c1, ratio)` is `c1` and `blendColors(c1, c2, 0)` is `c1`; of
the rounding only `rnd 0 = 0` is used. -/
theorem blendColors_same_and_zero (rnd : ℚ → ℚ) (h0 : rnd 0 = 0) (c1 c2 : Nat)
    (h1 : c1 < 65536) (h2 : c2 < 65536) (ratio : ℚ) (_hlo : 0 ≤ ratio) (_hhi : ratio ≤ 1) :
    BMOGraphics.blendColors rnd c1 c1 ratio = some c1 ∧
      BMOGraphics.blendColors rnd c1 c2 0 = some c1 := by
  constructor
  · simp [BMOGraphics.blendColors, Nat.mod_eq_of_lt h1, RED_FROM_565_mod, GREEN_FROM_565_mod,
      BLUE_FROM_565_mod, intToFloat, fmul, h0, floatToUint8_zero, repack_extract c1 h1]
  · simp [BMOGraphics.blendColors, Nat.mod_eq_of_lt h1, Nat.mod_eq_of_lt h2, RED_FROM_565_mod,
      GREEN_FROM_565_mod, BLUE_FROM_565_mod, intToFloat, fmul, h0, floatToUint8_zero,
      repack_extract c1 h1]

/-- C7, witness: colour `0x1234` blended with itself at ratio `1/2`, and with
white at ratio `0`. -/
theorem blendColors_same_and_zero_witness :
    BMOGraphics.blendColors id 0x1234 0x1234 (1 / 2) = some 0x1234 ∧
      BMOGraphics.blendColors id 0x1234 0xFFFF 0 = some 0x1234 :=
  blendColors_same_and_zero id rfl 0x1234 0xFFFF (by decide) (by decide) (1 / 2)
    (by norm_num) (by norm_num)

/-- C8: for every 16-bit colour `c`, `darkenColor(c, 0)` is `c` and
`darkenColor(c, 1)` is `0x0000`, under any rounding that is exact on the
integers `0..255`. -/
theorem darkenColor_zero_and_one (rnd : ℚ → ℚ) (hr : ExactOnBytes rnd) (c : Nat)
    (h : c < 65536) :
    BMOGraphics.darkenColor rnd c 0 = some c ∧ BMOGraphics.darkenColor rnd c 1 = some 0x0000 := by
  have hR := hr.natCast _ (le_trans (RED_FROM_565_le c) (by decide))
  have hG := hr.natCast _ (le_trans (GREEN_FROM_565_le c) (by decide))
  have hB := hr.natCast _ (le_trans (BLUE_FROM_565_le c) (by decide))
  have fR := floatToUint8_natCast_rat _ (le_trans (RED_FROM_565_le c) (by decide))
  have fG := floatToUint8_natCast_rat _ (le_trans (GREEN_FROM_565_le c) (by decide))
  have fB := floatToUint8_natCast_rat _ (le_trans (BLUE_FROM_565_le c) (by decide))
  constructor
  · simp [BMOGraphics.darkenColor, Nat.mod_eq_of_lt h, RED_FROM_565_mod, GREEN_FROM_565_mod,
      BLUE_FROM_565_mod, intToFloat, fmul, fsub, hr.one, hR, hG, hB, fR, fG, fB,
      repack_extract c h]
  · simp [BMOGraphics.darkenColor, intToFloat, fmul, fsub, hr.zero, floatToUint8_zero, RGB565]

/-- C8, witness: colour `0x1234` darkened by `0` and by `1`. -/
theorem darkenColor_zero_and_one_witness :
    BMOGraphics.darkenColor id 0x1234 0 = some 0x1234 ∧
      BMOGraphics.darkenColor id 0x1234 1 = some 0x0000 :=
  darkenColor_zero_and_one id exactOnBytes_id 0x1234 (by decide)

/-! ## Frame lemmas for the renderer -/

theorem gfxCall_of_null {g : GfxWorld} (h : g.graphics.tft = none) (c : TftCall) :
    gfxCall c g = none := by
  simp [gfxCall, h]

/-- A loop whose first iteration is undefined is undefined. -/
theorem forUpTo_none (n : Nat) (body : Int → GfxWorld → Option GfxWorld) (g : GfxWorld)
    (h : body 0 g = none) : forUpTo (n + 1) body g = none := by
  unfold forUpTo
  rw [List.range_succ_eq_map, List.foldlM_cons]
  simp [h]

/-- Two computations followed by an undefined step are undefined. -/
theorem bind_bind_none {α β γ : Type} (a : Option α) (b : Option β) (f : α → β → Option γ)
    (h : ∀ x y, f x y = none) : (a.bind fun x => b.bind fun y => f x y) = none := by
  cases a <;> cases b <;> simp [h]

theorem drawThickLine_of_null {g : GfxWorld} (h : g.graphics.tft = none)
    (x1 y1 x2 y2 : Int) (n : Nat) (color : Nat) :
    BMOGraphics.drawThickLine x1 y1 x2 y2 ((n + 1 : Nat) : Int) color g = none := by
  unfold BMOGraphics.drawThickLine
  rw [Int.toNat_natCast]
  exact forUpTo_none _ _ _ (forUpTo_none _ _ _ (gfxCall_of_null h _))

theorem drawCurve_of_null (rnd : ℚ → ℚ) {g : GfxWorld} (h : g.graphics.tft = none)
    (centerX centerY width height : Int) (color : Nat) (upward : Bool) :
    BMOGraphics.drawCurve rnd centerX centerY width height color upward g = none := by
  unfold BMOGraphics.drawCurve
  apply forUpTo_none
  exact bind_bind_none _ _ _ (fun y1 y2 => drawThickLine_of_null h _ y1 _ y2 2 color)

theorem drawEye_of_null (rnd : ℚ → ℚ) {g : GfxWorld} (h : g.graphics.tft = none)
    (centerX centerY : Int) (state : EyeState) (isLeft : Bool) :
    BMOGraphics.drawEye rnd centerX centerY state isLeft g = none := by
  cases state
  · simp [BMOGraphics.drawEye, BMOGraphics.drawSmoothCircle, BMOGraphics.drawAntiAliasedCircle,
      gfxCall_of_null h]
  · simp only [BMOGraphics.drawEye, BMOGraphics.drawClosedEye]
    rw [forUpTo_none 3 _ _ (gfxCall_of_null h _)]
    rfl
  · simp [BMOGraphics.drawEye, gfxCall_of_null h]
  · simp [BMOGraphics.drawEye, BMOGraphics.drawSmoothCircle, BMOGraphics.drawAntiAliasedCircle,
      gfxCall_of_null h]

/-- The guarded entry points do nothing on a renderer whose `initialized` flag
is false: they return with the environment as it was. -/
theorem guarded_draws_of_not_initialized (rnd : ℚ → ℚ) {g : GfxWorld}
    (h : g.graphics.initialized = false) (e : BMOExpression) (s : EyeState) (c : Nat) :
    BMOGraphics.drawBMOFace rnd e s g = some g ∧ BMOGraphics.clearScreen c g = some g ∧
      BMOGraphics.animateBlink rnd g = some g := by
  simp [BMOGraphics.drawBMOFace, BMOGraphics.clearScreen, BMOGraphics.animateBlink, h]

/-! ## Claims about the renderer -/

/-- C9: on an unbound renderer (never bound, bound with a null handle, or after
`end()`), `drawBMOFace(e, s)`, `clearScreen(c)` and `animateBlink()` return
without dereferencing the handle and leave the whole environment as it was: no
effect is issued and no field of the renderer changes. -/
theorem unbound_renderer_noop (rnd : ℚ → ℚ) (self : Nat) (g0 g : GfxWorld)
    (hg : g = BMOGraphics.newWorld ∨ g = BMOGraphics.begin self none g0 ∨
      g = BMOGraphics.end g0)
    (e : BMOExpression) (s : EyeState) (c : Nat) :
    BMOGraphics.drawBMOFace rnd e s g = some g ∧ BMOGraphics.clearScreen c g = some g ∧
      BMOGraphics.animateBlink rnd g = some g := by
  apply guarded_draws_of_not_initialized
  rcases hg with rfl | rfl | rfl
  · rfl
  · simp [BMOGraphics.begin, gfxEmit]
  · cases hi : g0.graphics.initialized <;> simp [BMOGraphics.end, hi, gfxEmit]

/-- C9, witness: a renderer that was bound to handle `5` and then ended. -/
theorem unbound_renderer_noop_witness :
    BMOGraphics.drawBMOFace id BMOExpression.EXPRESSION_SLEEPY EyeState.EYES_WIDE
        (BMOGraphics.end (BMOGraphics.begin 1 (some 5) BMOGraphics.newWorld)) =
      some (BMOGraphics.end (BMOGraphics.begin 1 (some 5) BMOGraphics.newWorld)) :=
  (unbound_renderer_noop id 1 (BMOGraphics.begin 1 (some 5) BMOGraphics.newWorld) _
    (Or.inr (Or.inr rfl)) BMOExpression.EXPRESSION_SLEEPY EyeState.EYES_WIDE 0).1

/-- C10 (code defect): on a renderer whose handle is null, each of the four
sub-draws `drawBackground()`, `drawFrame()`, `drawEyes(s)` and `drawMouth(e)`
calls through the null handle (the result is undefined, `none`); none of them
has the `initialized` guard that `drawBMOFace`, `clearScreen` and
`animateBlink` have. -/
theorem subdraws_dereference_null (rnd : ℚ → ℚ) (g : GfxWorld) (h : g.graphics.tft = none)
    (s : EyeState) (e : BMOExpression) :
    BMOGraphics.drawBackground rnd g = none ∧ BMOGraphics.drawFrame g = none ∧
      BMOGraphics.drawEyes rnd s g = none ∧ BMOGraphics.drawMouth rnd e g = none := by
  refine ⟨?_, ?_, ?_, ?_⟩
  · simp [BMOGraphics.drawBackground, gfxCall_of_null h]
  · simp only [BMOGraphics.drawFrame, BMOGraphics.drawRoundedRect]
    rw [forUpTo_none 5 _ _ (gfxCall_of_null h _)]
    rfl
  · simp [BMOGraphics.drawEyes, drawEye_of_null rnd h]
  · cases e
    · exact drawCurve_of_null rnd h _ _ _ _ _ _
    · simp [BMOGraphics.drawMouth, BMOGraphics.drawSurprisedMouth, gfxCall_of_null h]
    · exact drawThickLine_of_null h _ _ _ _ 2 _
    · simp [BMOGraphics.drawMouth, BMOGraphics.drawExcitedMouth, drawCurve_of_null rnd h]
    · simp only [BMOGraphics.drawMouth, BMOGraphics.drawConfusedMouth]
      exact forUpTo_none 7 _ _ (drawThickLine_of_null h _ _ _ _ 1 _)
    · exact drawCurve_of_null rnd h _ _ _ _ _ _

/-- C10, witness: a freshly constructed renderer; `drawBackground()` and the
other three sub-draws call through the null handle. -/
theorem subdraws_dereference_null_witness :
    BMOGraphics.drawBackground id BMOGraphics.newWorld = none ∧
      BMOGraphics.drawFrame BMOGraphics.newWorld = none ∧
      BMOGraphics.drawEyes id EyeState.EYES_OPEN BMOGraphics.newWorld = none ∧
      BMOGraphics.drawMouth id BMOExpression.EXPRESSION_HAPPY BMOGraphics.newWorld = none :=
  subdraws_dereference_null id BMOGraphics.newWorld rfl EyeState.EYES_OPEN
    BMOExpression.EXPRESSION_HAPPY

/-! ## Further claims about the display manager -/

section DisplayLifecycleClaims

open BMODisplay

theorem classify_resolved (id : Nat) :
    classify id = DisplayController.CONTROLLER_ILI9341 ∨
      classify id = DisplayController.CONTROLLER_ST7789 := by
  unfold classify
  split_ifs <;> simp

/-- C12: `begin()` always returns, and whenever it returns true, from any
manager state and for any ID bytes, afterwards `getStatus()` is `DISPLAY_OK`,
the controller kind is ILI9341 or ST7789, `getBacklight()` is `255`, the
manager is initialized, the handle is non-null and `g_bmoDisplay` points to
this manager. -/
theorem begin_success_state (self : Nat) (r : PanelResponses) (w : World) :
    ∃ b w', BMODisplay.begin self r w = some (b, w') ∧
      (b = true →
        BMODisplay.getStatus w'.display = DisplayStatus.DISPLAY_OK ∧
        (BMODisplay.getController w'.display = DisplayController.CONTROLLER_ILI9341 ∨
          BMODisplay.getController w'.display = DisplayController.CONTROLLER_ST7789) ∧
        BMODisplay.getBacklight w'.display = 255 ∧
        w'.display.initialized = true ∧
        w'.display.tft ≠ none ∧
        w'.g_bmoDisplay = some self) := by
  cases hp : (w.display.tft <|> r.alloc) with
  | none =>
    have ht : w.display.tft = none := by
      cases h : w.display.tft <;> simp [h] at hp ⊢
    have ha : r.alloc = none := by simpa [ht] using hp
    obtain ⟨w', e, _, _⟩ := begin_alloc_failure self r ht ha
    exact ⟨false, w', e, fun hb => by cases hb⟩
  | some p =>
    obtain ⟨w', e, hok, _⟩ := begin_of_handle self r hp
    refine ⟨statusRegOk r, w', e, fun hs => ?_⟩
    obtain ⟨d, g⟩ := hok hs
    rw [BMODisplay.getStatus, BMODisplay.getController, BMODisplay.getBacklight, d]
    exact ⟨rfl, classify_resolved _, rfl, rfl, by simp, g⟩

/-- C12, witness: a fresh manager at address `1` on a panel that answers ID
`0x009341` and status `0x53`. -/
theorem begin_success_state_witness :
    ∃ w', BMODisplay.begin 1 healthyPanel BMODisplay.newWorld = some (true, w') ∧
      BMODisplay.getStatus w'.display = DisplayStatus.DISPLAY_OK ∧
      BMODisplay.getBacklight w'.display = 255 ∧
      w'.display.initialized = true ∧
      w'.g_bmoDisplay = some 1 := by
  obtain ⟨b, w', e, h⟩ := begin_success_state 1 healthyPanel BMODisplay.newWorld
  have hb : (BMODisplay.begin 1 healthyPanel BMODisplay.newWorld).map Prod.fst = some true := by
    decide
  rw [e] at hb
  have hb' : b = true := by simpa using hb
  subst hb'
  obtain ⟨h1, _, h3, h4, _, h6⟩ := h rfl
  exact ⟨w', e, h1, h3, h4, h6⟩

/-- C13 (as amended): `begin()` always returns, and whenever it returns false
the initialized flag is what it was before the call (a manager that was not
initialized stays not initialized, one that was already initialized still
reports initialized), `getStatus()` is the error code of the stage that failed,
`DISPLAY_ERROR_MEMORY` for the allocation and `DISPLAY_ERROR_INIT` for the
self-test, never `DISPLAY_OK`, and `getLastError()` is non-null. -/
theorem begin_failure_state (self : Nat) (r : PanelResponses) (w : World) :
    ∃ b w', BMODisplay.begin self r w = some (b, w') ∧
      (b = false →
        w'.display.initialized = w.display.initialized ∧
        ((w.display.tft = none ∧ r.alloc = none ∧
            BMODisplay.getStatus w'.display = DisplayStatus.DISPLAY_ERROR_MEMORY) ∨
          (statusRegOk r = false ∧
            BMODisplay.getStatus w'.display = DisplayStatus.DISPLAY_ERROR_INIT)) ∧
        BMODisplay.getStatus w'.display ≠ DisplayStatus.DISPLAY_OK ∧
        BMODisplay.getLastError w'.display ≠ none) := by
  cases hp : (w.display.tft <|> r.alloc) with
  | none =>
    have ht : w.display.tft = none := by
      cases h : w.display.tft <;> simp [h] at hp ⊢
    have ha : r.alloc = none := by simpa [ht] using hp
    obtain ⟨w', e, d, _⟩ := begin_alloc_failure self r ht ha
    refine ⟨false, w', e, fun _ => ?_⟩
    rw [BMODisplay.getStatus, BMODisplay.getLastError, d]
    exact ⟨rfl, Or.inl ⟨ht, ha, rfl⟩, by simp, by simp⟩
  | some p =>
    obtain ⟨w', e, _, hfail⟩ := begin_of_handle self r hp
    refine ⟨statusRegOk r, w', e, fun hs => ?_⟩
    obtain ⟨d, _⟩ := hfail hs
    rw [BMODisplay.getStatus, BMODisplay.getLastError, d]
    exact ⟨rfl, Or.inr ⟨hs, rfl⟩, by simp, by simp⟩

/-- C13, witness: a fresh manager on a panel whose status register reads
`0x00`; `begin()` returns false, the manager is still not initialized, the
status is `DISPLAY_ERROR_INIT` and a message is recorded. -/
theorem begin_failure_state_witness :
    ∃ w', BMODisplay.begin 1 silentPanel BMODisplay.newWorld = some (false, w') ∧
      w'.display.initialized = false ∧
      BMODisplay.getStatus w'.display ≠ DisplayStatus.DISPLAY_OK ∧
      BMODisplay.getLastError w'.display ≠ none := by
  obtain ⟨b, w', e, h⟩ := begin_failure_state 1 silentPanel BMODisplay.newWorld
  have hb : (BMODisplay.begin 1 silentPanel BMODisplay.newWorld).map Prod.fst = some false := by
    decide
  rw [e] at hb
  have hb' : b = false := by simpa using hb
  subst hb'
  obtain ⟨h1, _, h3, h4⟩ := h rfl
  exact ⟨w', e, h1, h3, h4⟩

/-- C13, counterexample to the claim as stated: on the READY manager (already
initialized, handle `7`), a `begin()` whose self-test reads status `0x00`
returns false with `DISPLAY_ERROR_INIT`, and the manager still reports
initialized. -/
theorem begin_failure_still_initialized :
    (BMODisplay.begin 1 silentPanel readyWorld).map
      (fun res => (res.1, res.2.display.initialized, res.2.display.status)) =
      some (false, true, DisplayStatus.DISPLAY_ERROR_INIT) := by
  decide

/-- The invariant of the manager: an initialized manager holds a handle. -/
theorem applyOp_invariant (op : DisplayOp) (w : World)
    (hw : w.display.initialized = true → w.display.tft ≠ none) :
    ∃ w', applyOp op w = some w' ∧ (w'.display.initialized = true → w'.display.tft ≠ none) := by
  cases op with
  | callBegin self r =>
    cases hp : (w.display.tft <|> r.alloc) with
    | none =>
      have ht : w.display.tft = none := by
        cases h : w.display.tft <;> simp [h] at hp ⊢
      have ha : r.alloc = none := by simpa [ht] using hp
      obtain ⟨w', e, d, _⟩ := begin_alloc_failure self r ht ha
      refine ⟨w', by simp [applyOp, e], ?_⟩
      rw [d]
      intro hi
      exact absurd ht (hw hi)
    | some p =>
      obtain ⟨w', e, hok, hfail⟩ := begin_of_handle self r hp
      refine ⟨w', by simp [applyOp, e], fun _ => ?_⟩
      cases hs : statusRegOk r
      · rw [(hfail hs).1]; simp
      · rw [(hok hs).1]; simp
  | callEnd =>
    refine ⟨_, rfl, ?_⟩
    cases hi : w.display.initialized
    · simp [BMODisplay.end, hi]
    · cases ht : w.display.tft <;>
        simp [BMODisplay.end, hi, ht, backlightOff, setBacklight]
  | callSetBacklight v =>
    exact ⟨_, rfl, by simpa [setBacklight] using hw⟩
  | callSleep =>
    cases hi : w.display.initialized
    · exact ⟨w, by simp [applyOp, sleep, hi], by simp [hi]⟩
    · obtain ⟨p, ht⟩ := Option.ne_none_iff_exists'.mp (hw hi)
      refine ⟨_, by simpa [applyOp] using sleep_of_ready hi ht, ?_⟩
      simp [backlightOff, setBacklight, ht]
  | callWakeup =>
    cases hi : w.display.initialized
    · exact ⟨w, by simp [applyOp, wakeup, hi], by simp [hi]⟩
    · obtain ⟨p, ht⟩ := Option.ne_none_iff_exists'.mp (hw hi)
      refine ⟨_, by simpa [applyOp] using wakeup_of_ready hi ht, ?_⟩
      simp [setBacklight, ht]
  | callReset r =>
    cases hi : w.display.initialized
    · refine ⟨_, by simp [applyOp, reset, hi]; rfl, ?_⟩
      simp [hi]
    · obtain ⟨p, ht⟩ := Option.ne_none_iff_exists'.mp (hw hi)
      have h0 : (emit (HwEvent.delay 120) (emit (HwEvent.digitalWrite TFT_RST true)
          (emit (HwEvent.delay 10) (emit (HwEvent.digitalWrite TFT_RST false)
            (emit (HwEvent.serialPrintln "Performing display reset...") w))))).display.tft
          = some p := by simpa using ht
      obtain ⟨w', e, d, _⟩ := configureDisplay_of_handle r h0
      refine ⟨w', ?_, ?_⟩
      · simp [applyOp, reset, hi, e]
      · rw [d]; simp [ht]
  | callClear c =>
    refine ⟨_, rfl, ?_⟩
    cases ht : w.display.tft with
    | none => simpa [clear, ht] using hw
    | some p => simp [clear, ht]
  | callClearError =>
    exact ⟨_, rfl, by simpa [clearError] using hw⟩

theorem runOps_invariant (ops : List DisplayOp) (w : World)
    (hw : w.display.initialized = true → w.display.tft ≠ none) :
    ∃ w', runOps ops w = some w' ∧ (w'.display.initialized = true → w'.display.tft ≠ none) := by
  induction ops generalizing w with
  | nil => exact ⟨w, rfl, hw⟩
  | cons op ops ih =>
    obtain ⟨w1, e1, h1⟩ := applyOp_invariant op w hw
    obtain ⟨w2, e2, h2⟩ := ih w1 h1
    exact ⟨w2, by simp [runOps, e1, e2], h2⟩

/-- C14: every sequence of the public operations `begin`, `end`,
`setBacklight`, `sleep`, `wakeup`, `reset`, `clear` and `clearError`, with
arbitrary answers of the hardware, runs from a freshly constructed manager to
the end without a null dereference; in the state it reaches an initialized
manager holds a non-null handle, and `sleep()`, `wakeup()` and `reset()` called
there return (they do not dereference a null handle). -/
theorem initialized_has_handle (ops : List DisplayOp) :
    ∃ w, runOps ops BMODisplay.newWorld = some w ∧
      (w.display.initialized = true → w.display.tft ≠ none) ∧
      (∃ w', BMODisplay.sleep w = some w') ∧
      (∃ w', BMODisplay.wakeup w = some w') ∧
      (∀ r : PanelResponses, ∃ w', BMODisplay.reset r w = some w') := by
  obtain ⟨w, e, hw⟩ := runOps_invariant ops BMODisplay.newWorld (by decide)
  refine ⟨w, e, hw, ?_, ?_, fun r => ?_⟩
  · obtain ⟨w', e', _⟩ := applyOp_invariant DisplayOp.callSleep w hw
    exact ⟨w', e'⟩
  · obtain ⟨w', e', _⟩ := applyOp_invariant DisplayOp.callWakeup w hw
    exact ⟨w', e'⟩
  · obtain ⟨w', e', _⟩ := applyOp_invariant (DisplayOp.callReset r) w hw
    exact ⟨w', e'⟩

/-- C14, witness: `begin()` on a healthy panel, then `setBacklight(200)`,
`sleep()`, `wakeup()` and `reset()`; the sequence runs to the end and the
manager it reaches is initialized and holds a handle. -/
theorem initialized_has_handle_witness :
    ∃ w, runOps [DisplayOp.callBegin 1 healthyPanel, DisplayOp.callSetBacklight 200,
        DisplayOp.callSleep, DisplayOp.callWakeup, DisplayOp.callReset healthyPanel]
        BMODisplay.newWorld = some w ∧
      w.display.initialized = true ∧ w.display.tft ≠ none := by
  obtain ⟨w, e, h, _⟩ := initialized_has_handle
    [DisplayOp.callBegin 1 healthyPanel, DisplayOp.callSetBacklight 200,
      DisplayOp.callSleep, DisplayOp.callWakeup, DisplayOp.callReset healthyPanel]
  have hi : (runOps [DisplayOp.callBegin 1 healthyPanel, DisplayOp.callSetBacklight 200,
      DisplayOp.callSleep, DisplayOp.callWakeup, DisplayOp.callReset healthyPanel]
      BMODisplay.newWorld).map (fun w => w.display.initialized) = some true := by
    decide
  rw [e] at hi
  have hi' : w.display.initialized = true := by simpa using hi
  exact ⟨w, e, hi', h hi'⟩

/-- C15: when a handle is available (already held, or the allocation
succeeds), `begin()` returns true if and only if the status byte read by the
SPI self-test is neither `0x00` nor `0xFF`, and when it returns false the
recorded status is `DISPLAY_ERROR_INIT`.  Whatever the allocation does, the
status after `begin()` is never `DISPLAY_ERROR_SPI` nor
`DISPLAY_ERROR_CONTROLLER`. -/
theorem begin_true_iff_status_byte (self : Nat) (r : PanelResponses) (w : World) :
    (∀ p, (w.display.tft <|> r.alloc) = some p →
      ∃ b w', BMODisplay.begin self r w = some (b, w') ∧
        (b = true ↔ (r.statusReg % 256 ≠ 0x00 ∧ r.statusReg % 256 ≠ 0xFF)) ∧
        (b = false → w'.display.status = DisplayStatus.DISPLAY_ERROR_INIT)) ∧
    (∃ b w', BMODisplay.begin self r w = some (b, w') ∧
      (b = true → w'.display.status = DisplayStatus.DISPLAY_OK) ∧
      (b = false → w'.display.status = DisplayStatus.DISPLAY_ERROR_MEMORY ∨
        w'.display.status = DisplayStatus.DISPLAY_ERROR_INIT) ∧
      w'.display.status ≠ DisplayStatus.DISPLAY_ERROR_SPI ∧
      w'.display.status ≠ DisplayStatus.DISPLAY_ERROR_CONTROLLER) := by
  have key : ∀ p, (w.display.tft <|> r.alloc) = some p →
      ∃ w', BMODisplay.begin self r w = some (statusRegOk r, w') ∧
        (statusRegOk r = true → w'.display.status = DisplayStatus.DISPLAY_OK) ∧
        (statusRegOk r = false → w'.display.status = DisplayStatus.DISPLAY_ERROR_INIT) := by
    intro p hp
    obtain ⟨w', e, hok, hfail⟩ := begin_of_handle self r hp
    exact ⟨w', e, fun hs => by rw [(hok hs).1], fun hs => by rw [(hfail hs).1]⟩
  constructor
  · intro p hp
    obtain ⟨w', e, _, hfail⟩ := key p hp
    refine ⟨statusRegOk r, w', e, ?_, hfail⟩
    simp [statusRegOk]
  · cases hp : (w.display.tft <|> r.alloc) with
    | none =>
      have ht : w.display.tft = none := by
        cases h : w.display.tft <;> simp [h] at hp ⊢
      have ha : r.alloc = none := by simpa [ht] using hp
      obtain ⟨w', e, d, _⟩ := begin_alloc_failure self r ht ha
      have hm : w'.display.status = DisplayStatus.DISPLAY_ERROR_MEMORY := by rw [d]
      refine ⟨false, w', e, ?_, fun _ => Or.inl hm, ?_, ?_⟩
      · intro hb; cases hb
      · rw [hm]; decide
      · rw [hm]; decide
    | some p =>
      obtain ⟨w', e, hok, hfail⟩ := key p hp
      refine ⟨statusRegOk r, w', e, hok, fun hs => Or.inr (hfail hs), ?_, ?_⟩
      · cases hs : statusRegOk r
        · rw [hfail hs]; decide
        · rw [hok hs]; decide
      · cases hs : statusRegOk r
        · rw [hfail hs]; decide
        · rw [hok hs]; decide

/-- C15, witness: a fresh manager with a successful allocation; status byte
`0x53` makes `begin()` return true, status byte `0x00` makes it return false
with `DISPLAY_ERROR_INIT`. -/
theorem begin_true_iff_status_byte_witness :
    (∃ w', BMODisplay.begin 1 healthyPanel BMODisplay.newWorld = some (true, w')) ∧
      (∃ w', BMODisplay.begin 1 silentPanel BMODisplay.newWorld = some (false, w') ∧
        w'.display.status = DisplayStatus.DISPLAY_ERROR_INIT) := by
  obtain ⟨b1, w1, e1, i1, _⟩ :=
    (begin_true_iff_status_byte 1 healthyPanel BMODisplay.newWorld).1 7 (by decide)
  obtain ⟨b2, w2, e2, i2, f2⟩ :=
    (begin_true_iff_status_byte 1 silentPanel BMODisplay.newWorld).1 7 (by decide)
  have hb1 : b1 = true := i1.mpr (by decide)
  have hb2 : b2 = false := by
    cases b2
    · rfl
    · exact absurd (i2.mp rfl) (by decide)
  subst hb1
  subst hb2
  exact ⟨⟨w1, e1⟩, ⟨w2, e2, f2 rfl⟩⟩

end DisplayLifecycleClaims

/-! ## Further claims about the colour macros -/

theorem and_mask_low_bits (x m k : Nat) (h : m &&& (2 ^ k - 1) = 0) :
    (x &&& m) % 2 ^ k = 0 := by
  rw [← Nat.and_pow_two_sub_one_eq_mod, Nat.and_assoc, h, Nat.and_zero]

/-- C16: for every 16-bit colour `c`, packing the three extracted channels
gives `c` back, and each extracted channel lies in `0..255` with its low three
bits (red, blue) or low two bits (green) zero. -/
theorem RGB565_roundtrip (c : Nat) (h : c < 65536) :
    RGB565 (RED_FROM_565 c) (GREEN_FROM_565 c) (BLUE_FROM_565 c) = c ∧
      RED_FROM_565 c ≤ 255 ∧ RED_FROM_565 c % 8 = 0 ∧
      GREEN_FROM_565 c ≤ 255 ∧ GREEN_FROM_565 c % 4 = 0 ∧
      BLUE_FROM_565 c ≤ 255 ∧ BLUE_FROM_565 c % 8 = 0 := by
  refine ⟨RGB565_extract c h, ?_, ?_, ?_, ?_, ?_, ?_⟩
  · exact le_trans (RED_FROM_565_le c) (by decide)
  · exact and_mask_low_bits _ 0xF8 3 (by decide)
  · exact le_trans (GREEN_FROM_565_le c) (by decide)
  · exact and_mask_low_bits _ 0xFC 2 (by decide)
  · exact le_trans (BLUE_FROM_565_le c) (by decide)
  · exact and_mask_low_bits _ 0xF8 3 (by decide)

/-- C16, witness: the teal of the palette, `0x4E6D`, has channels `72`, `204`,
`104` and packs back to itself. -/
theorem RGB565_roundtrip_witness :
    RGB565 (RED_FROM_565 BMO_TEAL) (GREEN_FROM_565 BMO_TEAL) (BLUE_FROM_565 BMO_TEAL) = BMO_TEAL ∧
      RED_FROM_565 BMO_TEAL % 8 = 0 ∧ GREEN_FROM_565 BMO_TEAL % 4 = 0 ∧
      BLUE_FROM_565 BMO_TEAL % 8 = 0 :=
  ⟨(RGB565_roundtrip BMO_TEAL (by decide)).1, (RGB565_roundtrip BMO_TEAL (by decide)).2.2.1,
    (RGB565_roundtrip BMO_TEAL (by decide)).2.2.2.2.1,
    (RGB565_roundtrip BMO_TEAL (by decide)).2.2.2.2.2.2⟩

/-! ## Lemmas on the rounding and on truncation -/

theorem FloatRounding.int {rnd : ℚ → ℚ} (hr : FloatRounding rnd) (m : Int)
    (h1 : -16777216 ≤ m) (h2 : m ≤ 16777216) : rnd (m : ℚ) = (m : ℚ) := by
  simpa using hr.exact m 0 h1 h2 (by decide)

theorem FloatRounding.rnd_zero {rnd : ℚ → ℚ} (hr : FloatRounding rnd) : rnd 0 = 0 := by
  simpa using hr.int 0 (by decide) (by decide)

theorem FloatRounding.rnd_one {rnd : ℚ → ℚ} (hr : FloatRounding rnd) : rnd 1 = 1 := by
  simpa using hr.int 1 (by decide) (by decide)

/-- A value enclosed by two numbers the rounding leaves alone is rounded to a
value with the same enclosure. -/
theorem FloatRounding.enclose {rnd : ℚ → ℚ} (hr : FloatRounding rnd) {a b x : ℚ}
    (ha : rnd a = a) (hb : rnd b = b) (h1 : a ≤ x) (h2 : x ≤ b) :
    a ≤ rnd x ∧ rnd x ≤ b :=
  ⟨ha ▸ hr.mono a x h1, hb ▸ hr.mono x b h2⟩

theorem FloatRounding.unit {rnd : ℚ → ℚ} (hr : FloatRounding rnd) {x : ℚ}
    (h1 : 0 ≤ x) (h2 : x ≤ 1) : 0 ≤ rnd x ∧ rnd x ≤ 1 :=
  hr.enclose hr.rnd_zero hr.rnd_one h1 h2

theorem truncate_of_nonneg {x : ℚ} (h : 0 ≤ x) : truncate x = ⌊x⌋ := by
  unfold truncate
  rw [Rat.floor_def]
  exact Int.tdiv_eq_ediv (Rat.num_nonneg.mpr h) (Int.ofNat_nonneg _)

/-- Truncation of a non-negative value lying in `[n, n + 1)`. -/
theorem truncate_eq_of_mem {x : ℚ} {n : Int} (h1 : (n : ℚ) ≤ x) (h2 : x < (n : ℚ) + 1)
    (h0 : 0 ≤ n) : truncate x = n := by
  have hx : 0 ≤ x := le_trans (by exact_mod_cast h0) h1
  rw [truncate_of_nonneg hx, Int.floor_eq_iff]
  exact ⟨h1, h2⟩

theorem truncate_bounds {x : ℚ} {n : Int} (h1 : 0 ≤ x) (h2 : x ≤ (n : ℚ)) :
    0 ≤ truncate x ∧ truncate x ≤ n := by
  rw [truncate_of_nonneg h1]
  exact ⟨Int.floor_nonneg.mpr h1, Int.floor_le_iff.mpr (by linarith [Int.lt_floor_add_one x, h2, Int.floor_le x])⟩

theorem floatRounding_id : FloatRounding id :=
  ⟨fun _ _ h => h, fun _ _ _ _ _ => rfl⟩

/-- The float computation of `curveY`, followed step by step: when the
normalised abscissa `|x - centerX| / (width/2)` lies between `a` and `b`, and
the rounding leaves alone the numbers that bound the intermediate results, the
value handed to the `int` conversion lies between `height * (1 - b²)` and
`height * (1 - a²)`. -/
theorem curveY_enclosed {rnd : ℚ → ℚ} (hr : FloatRounding rnd)
    (centerX centerY width height : Int) (upward : Bool) (x : Int) (a b : ℚ)
    (hw1 : 0 < Int.tdiv width 2) (hw2 : Int.tdiv width 2 ≤ 16777216)
    (hx1 : -16777216 ≤ x - centerX) (hx2 : x - centerX ≤ 16777216)
    (hh1 : 0 ≤ height) (hh2 : height ≤ 16777216)
    (ha0 : 0 ≤ a) (hb1 : b ≤ 1)
    (hab1 : a ≤ |((x - centerX : Int) : ℚ) / ((Int.tdiv width 2 : Int) : ℚ)|)
    (hab2 : |((x - centerX : Int) : ℚ) / ((Int.tdiv width 2 : Int) : ℚ)| ≤ b)
    (ea : rnd a = a) (ea' : rnd (-a) = -a) (eb : rnd b = b) (eb' : rnd (-b) = -b)
    (eaa : rnd (a * a) = a * a) (ebb : rnd (b * b) = b * b)
    (eua : rnd (1 - a * a) = 1 - a * a) (eub : rnd (1 - b * b) = 1 - b * b)
    (epa : rnd ((height : ℚ) * (1 - a * a)) = (height : ℚ) * (1 - a * a))
    (epb : rnd ((height : ℚ) * (1 - b * b)) = (height : ℚ) * (1 - b * b)) :
    ∃ p : ℚ, (height : ℚ) * (1 - b * b) ≤ p ∧ p ≤ (height : ℚ) * (1 - a * a) ∧
      0 ≤ p ∧ p ≤ (height : ℚ) ∧
      BMOGraphics.curveY rnd centerX centerY width height upward x =
        some (centerY + (if upward then 1 else -1) * truncate p) := by
  have hab : a ≤ b := le_trans hab1 hab2
  have hb0 : 0 ≤ b := le_trans ha0 hab
  have hH : (0 : ℚ) ≤ (height : ℚ) := by exact_mod_cast hh1
  have ewid : rnd ((Int.tdiv width 2 : Int) : ℚ) = ((Int.tdiv width 2 : Int) : ℚ) :=
    hr.int _ (by omega) hw2
  have ed : rnd ((x - centerX : Int) : ℚ) = ((x - centerX : Int) : ℚ) := hr.int _ hx1 hx2
  have eH : rnd (height : ℚ) = (height : ℚ) := hr.int _ (by omega) hh2
  have hne : ((Int.tdiv width 2 : Int) : ℚ) ≠ 0 := by
    have : (0 : ℚ) < ((Int.tdiv width 2 : Int) : ℚ) := by exact_mod_cast hw1
    exact ne_of_gt this
  -- the normalised abscissa after rounding
  obtain ⟨q, hq⟩ : ∃ q : ℚ, q = ((x - centerX : Int) : ℚ) / ((Int.tdiv width 2 : Int) : ℚ) :=
    ⟨_, rfl⟩
  rw [← hq] at hab1 hab2
  have ht : a ≤ |rnd q| ∧ |rnd q| ≤ b := by
    rcases le_total 0 q with h0 | h0
    · rw [abs_of_nonneg h0] at hab1 hab2
      obtain ⟨l, u⟩ := hr.enclose (x := q) ea eb hab1 hab2
      rw [abs_of_nonneg (le_trans ha0 l)]
      exact ⟨l, u⟩
    · rw [abs_of_nonpos h0] at hab1 hab2
      obtain ⟨l, u⟩ := hr.enclose (x := q) eb' ea' (by linarith) (by linarith)
      have hn : rnd q ≤ 0 := by linarith
      rw [abs_of_nonpos hn]
      constructor <;> linarith
  -- its square, one minus the square, and the scaled value
  have hsq : a * a ≤ rnd q * rnd q ∧ rnd q * rnd q ≤ b * b := by
    rw [← abs_mul_abs_self (rnd q)]
    exact ⟨mul_le_mul ht.1 ht.1 ha0 (le_trans ha0 ht.1),
      mul_le_mul ht.2 ht.2 (abs_nonneg _) hb0⟩
  obtain ⟨s1, s2⟩ := hr.enclose (x := rnd q * rnd q) eaa ebb hsq.1 hsq.2
  obtain ⟨u1, u2⟩ := hr.enclose (x := 1 - rnd (rnd q * rnd q)) eub eua
    (sub_le_sub_left s2 1) (sub_le_sub_left s1 1)
  obtain ⟨p1, p2⟩ := hr.enclose (x := (height : ℚ) * rnd (1 - rnd (rnd q * rnd q))) epb epa
    (mul_le_mul_of_nonneg_left u1 hH) (mul_le_mul_of_nonneg_left u2 hH)
  have hbb : b * b ≤ 1 := by nlinarith
  have haa : 0 ≤ a * a := mul_nonneg ha0 ha0
  have hp0 : 0 ≤ (height : ℚ) * (1 - b * b) := mul_nonneg hH (by linarith)
  have hpH : (height : ℚ) * (1 - a * a) ≤ (height : ℚ) := by nlinarith
  refine ⟨_, p1, p2, le_trans hp0 p1, le_trans p2 hpH, ?_⟩
  obtain ⟨t0, t1⟩ := truncate_bounds (le_trans hp0 p1) (le_trans p2 hpH)
  have hrange : -2147483648 ≤ truncate (rnd ((height : ℚ) * rnd (1 - rnd (rnd q * rnd q)))) ∧
      truncate (rnd ((height : ℚ) * rnd (1 - rnd (rnd q * rnd q)))) ≤ 2147483647 :=
    ⟨by omega, by omega⟩
  simp only [BMOGraphics.curveY, fdiv, intToFloat, fmul, fsub, floatToInt, ewid, ed, eH, hne,
    if_false, ← hq]
  simp [hrange]

/-! ## Lemmas on the effects of the drawing functions -/

theorem gfxAppend_nil (g : GfxWorld) : gfxAppend g [] = g := by
  simp [gfxAppend]

theorem gfxAppend_append (g : GfxWorld) (a b : List HwEvent) :
    gfxAppend (gfxAppend g a) b = gfxAppend g (a ++ b) := by
  simp [gfxAppend]

theorem gfxAppend_tft (g : GfxWorld) (a : List HwEvent) :
    (gfxAppend g a).graphics = g.graphics := rfl

theorem drawCallsOnly_nil : DrawCallsOnly [] := by
  intro ev h; cases h

theorem drawCallsOnly_append {a b : List HwEvent} (ha : DrawCallsOnly a)
    (hb : DrawCallsOnly b) : DrawCallsOnly (a ++ b) := by
  intro ev h
  rcases List.mem_append.mp h with h | h
  · exact ha ev h
  · exact hb ev h

theorem draws_gfxCall {c : TftCall} (h1 : c ≠ TftCall.startWrite) (h2 : c ≠ TftCall.endWrite) :
    Draws (gfxCall c) := by
  refine ⟨[HwEvent.tft c], ?_, ?_⟩
  · intro ev hev
    rw [List.mem_singleton] at hev
    subst hev
    exact ⟨fun h => h1 (HwEvent.tft.inj h), fun h => h2 (HwEvent.tft.inj h)⟩
  · intro g hg
    obtain ⟨p, hp⟩ := Option.ne_none_iff_exists'.mp hg
    simp [gfxCall, hp, gfxEmit, gfxAppend]

theorem draws_seq {f h : GfxWorld → Option GfxWorld} (hf : Draws f) (hh : Draws h) :
    Draws (fun g => (f g).bind h) := by
  obtain ⟨a, da, ia⟩ := hf
  obtain ⟨b, db, ib⟩ := hh
  refine ⟨a ++ b, drawCallsOnly_append da db, fun g hg => ?_⟩
  simp only [ia g hg, Option.some_bind]
  rw [ib (gfxAppend g a) (by rw [gfxAppend_tft]; exact hg), gfxAppend_append]

theorem draws_forUpTo (n : Nat) {body : Int → GfxWorld → Option GfxWorld}
    (hb : ∀ i : Nat, i < n → Draws (body i)) : Draws (forUpTo n body) := by
  induction n with
  | zero =>
    exact ⟨[], drawCallsOnly_nil, fun g _ => by simp [forUpTo, gfxAppend_nil]⟩
  | succ n ih =>
    have h1 := ih (fun i hi => hb i (Nat.lt_succ_of_lt hi))
    have h2 := draws_seq h1 (hb n (Nat.lt_succ_self n))
    obtain ⟨evs, d, i⟩ := h2
    refine ⟨evs, d, fun g hg => ?_⟩
    rw [← i g hg]
    simp [forUpTo, List.range_succ, List.foldlM_append]

theorem Draws.congr {f h : GfxWorld → Option GfxWorld} (hh : Draws h)
    (hfh : ∀ g, f g = h g) : Draws f := by
  obtain ⟨evs, d, i⟩ := hh
  exact ⟨evs, d, fun g hg => by rw [hfh g, i g hg]⟩

theorem draws_drawRoundedRect (x y width height radius : Int) (color : Nat) :
    Draws (BMOGraphics.drawRoundedRect x y width height radius color) :=
  draws_gfxCall (by simp) (by simp)

theorem draws_drawFrame : Draws BMOGraphics.drawFrame :=
  draws_seq (draws_forUpTo 6 (fun _ _ => draws_drawRoundedRect _ _ _ _ _ _))
    (draws_drawRoundedRect _ _ _ _ _ _)

theorem draws_drawThickLine (x1 y1 x2 y2 thickness : Int) (color : Nat) :
    Draws (BMOGraphics.drawThickLine x1 y1 x2 y2 thickness color) :=
  draws_forUpTo _ (fun _ _ => draws_forUpTo _ (fun _ _ => draws_gfxCall (by simp) (by simp)))

theorem draws_drawEyeHighlight (centerX centerY : Int) :
    Draws (BMOGraphics.drawEyeHighlight centerX centerY) :=
  draws_seq (draws_gfxCall (by simp) (by simp)) (draws_gfxCall (by simp) (by simp))

theorem draws_drawClosedEye (centerX centerY width : Int) :
    Draws (BMOGraphics.drawClosedEye centerX centerY width) :=
  draws_seq (draws_forUpTo 4 (fun _ _ => draws_gfxCall (by simp) (by simp)))
    (draws_seq (draws_gfxCall (by simp) (by simp)) (draws_gfxCall (by simp) (by simp)))

/-- Darkening black is defined and gives black: every channel is `0`. -/
theorem darkenColor_black {rnd : ℚ → ℚ} (h0 : rnd 0 = 0) (amount : ℚ) :
    BMOGraphics.darkenColor rnd BMO_BLACK amount = some 0 := by
  simp [BMOGraphics.darkenColor, BMO_BLACK, RED_FROM_565, GREEN_FROM_565, BLUE_FROM_565,
    intToFloat, fmul, h0, floatToUint8_zero, RGB565]

theorem draws_drawSmoothCircle_black {rnd : ℚ → ℚ} (h0 : rnd 0 = 0)
    (centerX centerY radius : Int) :
    Draws (BMOGraphics.drawSmoothCircle rnd centerX centerY radius BMO_BLACK) := by
  have h := draws_seq
    (draws_gfxCall (c := TftCall.fillCircle centerX centerY radius BMO_BLACK) (by simp) (by simp))
    (draws_gfxCall (c := TftCall.drawCircle centerX centerY radius 0) (by simp) (by simp))
  obtain ⟨evs, d, i⟩ := h
  refine ⟨evs, d, fun g hg => ?_⟩
  rw [← i g hg]
  simp [BMOGraphics.drawSmoothCircle, BMOGraphics.drawAntiAliasedCircle, darkenColor_black h0]

theorem draws_drawEye {rnd : ℚ → ℚ} (h0 : rnd 0 = 0) (centerX centerY : Int)
    (state : EyeState) (isLeft : Bool) :
    Draws (BMOGraphics.drawEye rnd centerX centerY state isLeft) := by
  cases state
  · exact draws_seq (draws_drawSmoothCircle_black h0 _ _ _) (draws_drawEyeHighlight _ _)
  · exact draws_drawClosedEye _ _ _
  · exact draws_seq (draws_gfxCall (by simp) (by simp)) (draws_drawEyeHighlight _ _)
  · exact draws_seq (draws_drawSmoothCircle_black h0 _ _ _)
      (draws_seq (draws_drawEyeHighlight _ _) (draws_gfxCall (by simp) (by simp)))

theorem draws_drawEyes {rnd : ℚ → ℚ} (h0 : rnd 0 = 0) (state : EyeState) :
    Draws (BMOGraphics.drawEyes rnd state) :=
  draws_seq (draws_drawEye h0 _ _ state true) (draws_drawEye h0 _ _ state false)

/-- On the span of the curve the float computation of `curveY` is defined: the
value converted to `int` lies between `0` and `height`. -/
theorem curveY_defined {rnd : ℚ → ℚ} (hr : FloatRounding rnd)
    (centerX centerY width height : Int) (upward : Bool) (x : Int)
    (hw1 : 0 < Int.tdiv width 2) (hw2 : Int.tdiv width 2 ≤ 16777216)
    (hx : |x - centerX| ≤ Int.tdiv width 2)
    (hh1 : 0 ≤ height) (hh2 : height ≤ 16777216) :
    ∃ y, BMOGraphics.curveY rnd centerX centerY width height upward x = some y := by
  have hx' := abs_le.mp hx
  have hq : |((x - centerX : Int) : ℚ) / ((Int.tdiv width 2 : Int) : ℚ)| ≤ 1 := by
    have hpos : (0 : ℚ) < ((Int.tdiv width 2 : Int) : ℚ) := by exact_mod_cast hw1
    rw [abs_div, abs_of_pos hpos, div_le_one hpos]
    exact_mod_cast hx
  obtain ⟨p, _, _, _, _, e⟩ := curveY_enclosed hr centerX centerY width height upward x 0 1
    hw1 hw2 (by omega) (by omega) hh1 hh2 le_rfl le_rfl (abs_nonneg _) hq
    hr.rnd_zero (by simpa using hr.rnd_zero) hr.rnd_one (by simpa using hr.int (-1) (by decide) (by decide))
    (by simpa using hr.rnd_zero) (by simpa using hr.rnd_one) (by simpa using hr.rnd_one)
    (by simpa using hr.rnd_zero) (by simpa using hr.int height (by omega) hh2)
    (by simpa using hr.rnd_zero)
  exact ⟨_, e⟩

theorem draws_drawCurve {rnd : ℚ → ℚ} (hr : FloatRounding rnd)
    (centerX centerY width height : Int) (color : Nat) (upward : Bool)
    (hw1 : 0 < Int.tdiv width 2) (hw2 : Int.tdiv width 2 ≤ 16777216)
    (hs1 : 0 ≤ Int.tdiv width 20) (hs2 : 20 * Int.tdiv width 20 ≤ 2 * Int.tdiv width 2)
    (hh1 : 0 ≤ height) (hh2 : height ≤ 16777216) :
    Draws (BMOGraphics.drawCurve rnd centerX centerY width height color upward) := by
  refine Draws.congr (@draws_forUpTo 20 (fun i g => (do
    let y1 ← BMOGraphics.curveY rnd centerX centerY width height upward
      (centerX - Int.tdiv width 2 + i * Int.tdiv width 20)
    let y2 ← BMOGraphics.curveY rnd centerX centerY width height upward
      (centerX - Int.tdiv width 2 + (i + 1) * Int.tdiv width 20)
    BMOGraphics.drawThickLine (centerX - Int.tdiv width 2 + i * Int.tdiv width 20) y1
      (centerX - Int.tdiv width 2 + (i + 1) * Int.tdiv width 20) y2 3 color g)) ?_)
    (fun g => rfl)
  intro i hi
  have hpt : ∀ k : Nat, k ≤ 20 →
      |centerX - Int.tdiv width 2 + (k : Int) * Int.tdiv width 20 - centerX|
        ≤ Int.tdiv width 2 := by
    intro k hk
    have hk' : (k : Int) ≤ 20 := by exact_mod_cast hk
    have h0 : 0 ≤ (k : Int) * Int.tdiv width 20 := mul_nonneg (by omega) hs1
    have h1 : (k : Int) * Int.tdiv width 20 ≤ 20 * Int.tdiv width 20 :=
      mul_le_mul_of_nonneg_right hk' hs1
    rw [abs_le]
    constructor <;> omega
  obtain ⟨y1, e1⟩ := curveY_defined hr centerX centerY width height upward
    (centerX - Int.tdiv width 2 + (i : Int) * Int.tdiv width 20) hw1 hw2
    (hpt i (by omega)) hh1 hh2
  obtain ⟨y2, e2⟩ := curveY_defined hr centerX centerY width height upward
    (centerX - Int.tdiv width 2 + ((i : Int) + 1) * Int.tdiv width 20) hw1 hw2
    (by simpa using hpt (i + 1) (by omega)) hh1 hh2
  obtain ⟨evs, d, h⟩ := draws_drawThickLine
    (centerX - Int.tdiv width 2 + (i : Int) * Int.tdiv width 20) y1
    (centerX - Int.tdiv width 2 + ((i : Int) + 1) * Int.tdiv width 20) y2 3 color
  refine ⟨evs, d, fun g hg => ?_⟩
  rw [← h g hg]
  simp [e1, e2]

theorem draws_drawMouth {rnd : ℚ → ℚ} (hr : FloatRounding rnd) (expression : BMOExpression) :
    Draws (BMOGraphics.drawMouth rnd expression) := by
  cases expression
  · exact draws_drawCurve hr _ _ MOUTH_WIDTH MOUTH_HEIGHT _ _
      (by decide) (by decide) (by decide) (by decide) (by decide) (by decide)
  · exact draws_seq (draws_gfxCall (by simp) (by simp)) (draws_gfxCall (by simp) (by simp))
  · exact Draws.congr (draws_drawThickLine _ _ _ _ _ _) (fun g => rfl)
  · exact draws_seq
      (draws_drawCurve hr _ _ (MOUTH_WIDTH + 20) (MOUTH_HEIGHT + 10) _ _
        (by decide) (by decide) (by decide) (by decide) (by decide) (by decide))
      (draws_forUpTo 4 (fun _ _ => draws_gfxCall (by simp) (by simp)))
  · exact Draws.congr (h := forUpTo 8 (fun i g =>
        BMOGraphics.drawThickLine
          (FACE_CENTER_X - Int.tdiv MOUTH_WIDTH 2 + (i * Int.tdiv MOUTH_WIDTH 8))
          (FACE_CENTER_Y + MOUTH_Y_OFFSET + (if Int.tmod i 2 = 0 then -5 else 5))
          (FACE_CENTER_X - Int.tdiv MOUTH_WIDTH 2 + (i * Int.tdiv MOUTH_WIDTH 8)
            + Int.tdiv MOUTH_WIDTH 8)
          (FACE_CENTER_Y + MOUTH_Y_OFFSET + (if Int.tmod i 2 = 0 then 5 else -5))
          2 BMO_BLACK g))
      (draws_forUpTo 8 (fun _ _ => draws_drawThickLine _ _ _ _ _ _)) (fun g => rfl)
  · exact draws_drawCurve hr _ _ MOUTH_WIDTH MOUTH_HEIGHT _ _
      (by decide) (by decide) (by decide) (by decide) (by decide) (by decide)

theorem floatToUint8_defined {x : ℚ} (h1 : 0 ≤ x) (h2 : x ≤ 255) :
    ∃ n, floatToUint8 x = some n := by
  obtain ⟨t0, t1⟩ := truncate_bounds (n := 255) h1 (by simpa using h2)
  exact ⟨(truncate x % 256).toNat, by
    rw [floatToUint8, if_pos ⟨by omega, by omega⟩]⟩

/-- One channel of `blendColors` toward a colour that is not darker, at a ratio
in `[0, 1]`: the conversion to `uint8_t` is defined. -/
theorem blend_channel_defined {rnd : ℚ → ℚ} (hr : FloatRounding rnd) (d : Int)
    (hd1 : 0 ≤ d) (hd2 : d ≤ 255) (ratio : ℚ) (h0 : 0 ≤ ratio) (h1 : ratio ≤ 1) :
    ∃ n, floatToUint8 (fmul rnd (intToFloat rnd d) ratio) = some n := by
  have ed : rnd (d : ℚ) = (d : ℚ) := hr.int d (by omega) (by omega)
  have hd : (0 : ℚ) ≤ (d : ℚ) := by exact_mod_cast hd1
  have hd' : (d : ℚ) ≤ 255 := by exact_mod_cast hd2
  obtain ⟨l, u⟩ := hr.enclose (x := (d : ℚ) * ratio) hr.rnd_zero ed (mul_nonneg hd h0)
    (by nlinarith)
  simp only [fmul, intToFloat, ed]
  exact floatToUint8_defined l (le_trans u hd')

/-- The gradient colours of `drawBackground()` are defined: teal blended toward
light teal at a ratio in `[0, 1]`. -/
theorem blendColors_teal_defined {rnd : ℚ → ℚ} (hr : FloatRounding rnd) (ratio : ℚ)
    (h0 : 0 ≤ ratio) (h1 : ratio ≤ 1) :
    ∃ c, BMOGraphics.blendColors rnd BMO_TEAL BMO_LIGHT_TEAL ratio = some c := by
  have r1 : RED_FROM_565 (BMO_TEAL % 65536) % 256 = 72 := by decide
  have g1 : GREEN_FROM_565 (BMO_TEAL % 65536) % 256 = 204 := by decide
  have b1 : BLUE_FROM_565 (BMO_TEAL % 65536) % 256 = 104 := by decide
  have r2 : RED_FROM_565 (BMO_LIGHT_TEAL % 65536) % 256 = 104 := by decide
  have g2 : GREEN_FROM_565 (BMO_LIGHT_TEAL % 65536) % 256 = 216 := by decide
  have b2 : BLUE_FROM_565 (BMO_LIGHT_TEAL % 65536) % 256 = 232 := by decide
  obtain ⟨nr, er⟩ := blend_channel_defined hr (((104 : Nat) : Int) - ((72 : Nat) : Int))
    (by decide) (by decide) ratio h0 h1
  obtain ⟨ng, eg⟩ := blend_channel_defined hr (((216 : Nat) : Int) - ((204 : Nat) : Int))
    (by decide) (by decide) ratio h0 h1
  obtain ⟨nb, eb⟩ := blend_channel_defined hr (((232 : Nat) : Int) - ((104 : Nat) : Int))
    (by decide) (by decide) ratio h0 h1
  simp only [BMOGraphics.blendColors, r1, g1, b1, r2, g2, b2, er, eg, eb]
  exact ⟨_, rfl⟩

theorem draws_drawBackground {rnd : ℚ → ℚ} (hr : FloatRounding rnd) :
    Draws (BMOGraphics.drawBackground rnd) := by
  refine draws_seq (draws_gfxCall (by simp) (by simp)) (draws_forUpTo 80 ?_)
  intro k hk
  have hk' : (k : ℚ) ≤ 79 := by exact_mod_cast Nat.le_of_lt_succ hk
  have hk0 : (0 : ℚ) ≤ (k : ℚ) := Nat.cast_nonneg k
  have ey : rnd (((4 * (k : Int) : Int)) : ℚ) = ((4 * (k : Int) : Int) : ℚ) :=
    hr.int _ (by omega) (by omega)
  obtain ⟨t0, t1⟩ := hr.unit (x := ((4 * (k : Int) : Int) : ℚ) / 320)
    (by push_cast; positivity) (by push_cast; rw [div_le_one (by norm_num)]; linarith)
  obtain ⟨c0, c1⟩ := hr.unit (x := (1 : ℚ) / 10) (by norm_num) (by norm_num)
  obtain ⟨q0, q1⟩ := hr.unit
    (x := rnd (((4 * (k : Int) : Int) : ℚ) / 320) * rnd ((1 : ℚ) / 10))
    (mul_nonneg t0 c0) (by nlinarith)
  obtain ⟨c, ec⟩ := blendColors_teal_defined hr _ q0 q1
  obtain ⟨evs, d, h⟩ := draws_gfxCall (c := TftCall.drawFastHLine 0 (4 * (k : Int)) 240 c)
    (by simp) (by simp)
  refine ⟨evs, d, fun g hg => ?_⟩
  rw [← h g hg]
  have ey' : rnd (4 * (k : ℚ)) = 4 * (k : ℚ) := by simpa using ey
  simp only [fdiv, intToFloat, fmul, ey, ey', Int.cast_mul, Int.cast_ofNat, Int.cast_natCast,
    one_div] at ec ⊢
  simp [ec]

theorem DrawCallsOnly.count_startWrite {evs : List HwEvent} (h : DrawCallsOnly evs) :
    List.count (HwEvent.tft TftCall.startWrite) evs = 0 :=
  List.count_eq_zero_of_not_mem (fun hm => (h _ hm).1 rfl)

theorem DrawCallsOnly.count_endWrite {evs : List HwEvent} (h : DrawCallsOnly evs) :
    List.count (HwEvent.tft TftCall.endWrite) evs = 0 :=
  List.count_eq_zero_of_not_mem (fun hm => (h _ hm).2 rfl)

/-! ## Further claims about the renderer -/

/-- C11: under a rounding that is monotone and exact on short dyadic rationals,
each of the four sub-draws issues, on every renderer holding a handle, a fixed
list of effects (`bg`, `fr`, `ey`, `mo`) and changes nothing else; and on every
bound renderer `drawBMOFace(e, s)` returns, and what it issues is its log line,
one `startWrite`, then the effects of `drawBackground`, of `drawFrame`, of
`drawEyes(s)` and of `drawMouth(e)` in that order, then one `endWrite`.  The
issued effects hold exactly one `startWrite` and exactly one `endWrite`, and
`fastDrawMode` is false when the call returns. -/
theorem drawBMOFace_trace (rnd : ℚ → ℚ) (hr : FloatRounding rnd) (e : BMOExpression)
    (s : EyeState) :
    ∃ bg fr ey mo : List HwEvent,
      IssuesOnBound (BMOGraphics.drawBackground rnd) bg ∧
      IssuesOnBound BMOGraphics.drawFrame fr ∧
      IssuesOnBound (BMOGraphics.drawEyes rnd s) ey ∧
      IssuesOnBound (BMOGraphics.drawMouth rnd e) mo ∧
      ∀ g : GfxWorld, g.graphics.initialized = true → g.graphics.tft ≠ none →
        ∃ g', BMOGraphics.drawBMOFace rnd e s g = some g' ∧
          g'.trace = g.trace ++
            (HwEvent.serialPrintf "Drawing BMO face - Expression: %d, Eyes: %d\n"
                [PrintfArg.num e.toInt, PrintfArg.num s.toInt] ::
              HwEvent.tft TftCall.startWrite ::
                (bg ++ fr ++ ey ++ mo ++ [HwEvent.tft TftCall.endWrite])) ∧
          List.count (HwEvent.tft TftCall.startWrite)
            (HwEvent.tft TftCall.startWrite ::
              (bg ++ fr ++ ey ++ mo ++ [HwEvent.tft TftCall.endWrite])) = 1 ∧
          List.count (HwEvent.tft TftCall.endWrite)
            (HwEvent.tft TftCall.startWrite ::
              (bg ++ fr ++ ey ++ mo ++ [HwEvent.tft TftCall.endWrite])) = 1 ∧
          g'.graphics.fastDrawMode = false ∧
          g'.graphics.currentExpression = e ∧ g'.graphics.currentEyeState = s := by
  obtain ⟨bg, dbg, ibg⟩ := draws_drawBackground hr
  obtain ⟨fr, dfr, ifr⟩ := draws_drawFrame
  obtain ⟨ey, dey, iey⟩ := draws_drawEyes hr.rnd_zero s
  obtain ⟨mo, dmo, imo⟩ := draws_drawMouth hr e
  refine ⟨bg, fr, ey, mo, ibg, ifr, iey, imo, fun g hi ht => ?_⟩
  obtain ⟨p, hp⟩ := Option.ne_none_iff_exists'.mp ht
  have hne : ∀ x : GfxWorld, x.graphics.tft = some p → x.graphics.tft ≠ none := by
    intro x hx; rw [hx]; simp
  refine ⟨{ graphics := { g.graphics with
              currentExpression := e, currentEyeState := s, fastDrawMode := false }
            g_bmoGraphics := g.g_bmoGraphics
            trace := g.trace ++
              (HwEvent.serialPrintf "Drawing BMO face - Expression: %d, Eyes: %d\n"
                  [PrintfArg.num e.toInt, PrintfArg.num s.toInt] ::
                HwEvent.tft TftCall.startWrite ::
                  (bg ++ fr ++ ey ++ mo ++ [HwEvent.tft TftCall.endWrite])) },
    ?_, rfl, ?_, ?_, rfl, rfl, rfl⟩
  · simp only [BMOGraphics.drawBMOFace, hi, BMOGraphics.startFastDraw, gfxCall, gfxEmit, hp,
      Bool.not_true, Bool.false_eq_true, if_false, if_true, Option.bind_eq_bind,
      Option.some_bind, Option.pure_def]
    have jbg : ∀ x : GfxWorld, x.graphics.tft ≠ none →
        BMOGraphics.drawBackground rnd x = some (gfxAppend x bg) := ibg
    have jfr : ∀ x : GfxWorld, x.graphics.tft ≠ none →
        BMOGraphics.drawFrame x = some (gfxAppend x fr) := ifr
    have jey : ∀ x : GfxWorld, x.graphics.tft ≠ none →
        BMOGraphics.drawEyes rnd s x = some (gfxAppend x ey) := iey
    have jmo : ∀ x : GfxWorld, x.graphics.tft ≠ none →
        BMOGraphics.drawMouth rnd e x = some (gfxAppend x mo) := imo
    rw [jbg _ (by simp), Option.some_bind, jfr _ (by simp [gfxAppend]), Option.some_bind,
      jey _ (by simp [gfxAppend]), Option.some_bind, jmo _ (by simp [gfxAppend]),
      Option.some_bind]
    simp [BMOGraphics.endFastDraw, gfxAppend, gfxCall, gfxEmit]
  · simp [List.count_cons, List.count_append, dbg.count_startWrite, dfr.count_startWrite,
      dey.count_startWrite, dmo.count_startWrite]
  · simp [List.count_cons, List.count_append, dbg.count_endWrite, dfr.count_endWrite,
      dey.count_endWrite, dmo.count_endWrite]

/-- C11, witness: `drawBMOFace(HAPPY, OPEN)` on the sample bound renderer
returns with `fastDrawMode` false, and the trace it leaves holds exactly one
`startWrite` and exactly one `endWrite`. -/
theorem drawBMOFace_trace_witness :
    ∃ g', BMOGraphics.drawBMOFace id BMOExpression.EXPRESSION_HAPPY EyeState.EYES_OPEN
        BMOGraphics.boundWorld = some g' ∧
      g'.graphics.fastDrawMode = false ∧
      List.count (HwEvent.tft TftCall.startWrite) g'.trace = 1 ∧
      List.count (HwEvent.tft TftCall.endWrite) g'.trace = 1 := by
  obtain ⟨bg, fr, ey, mo, _, _, _, _, h⟩ :=
    drawBMOFace_trace id floatRounding_id BMOExpression.EXPRESSION_HAPPY EyeState.EYES_OPEN
  obtain ⟨g', e, ht, c1, c2, hf, _, _⟩ := h BMOGraphics.boundWorld rfl (by decide)
  refine ⟨g', e, hf, ?_, ?_⟩
  · rw [ht, List.count_append, List.count_cons, c1]
    decide
  · rw [ht, List.count_append, List.count_cons, c2]
    decide

/-- The table behind the happy mouth: for each of the 21 abscissae, the
distance `d = |3 j - 30|` to the centre is enclosed by `ma / 256` and
`mb / 256` (in units of the half width `30`), and `20 * (1 - t²)` stays within
one unit interval `[n, n + 1)` over that enclosure. -/
theorem happyMouth_table : ∀ j : Nat, j ≤ 20 →
    30 * (256 * ((3 * (j : Int) - 30).natAbs) / 30) ≤ 256 * ((3 * (j : Int) - 30).natAbs) ∧
    256 * ((3 * (j : Int) - 30).natAbs) ≤ 30 * ((256 * ((3 * (j : Int) - 30).natAbs) + 29) / 30) ∧
    (256 * ((3 * (j : Int) - 30).natAbs) + 29) / 30 ≤ 256 ∧
    (20 * (65536 - ((256 * ((3 * (j : Int) - 30).natAbs) + 29) / 30) *
          ((256 * ((3 * (j : Int) - 30).natAbs) + 29) / 30)) / 65536) * 65536 ≤
      20 * (65536 - ((256 * ((3 * (j : Int) - 30).natAbs) + 29) / 30) *
          ((256 * ((3 * (j : Int) - 30).natAbs) + 29) / 30)) ∧
    20 * (65536 - (256 * ((3 * (j : Int) - 30).natAbs) / 30) *
          (256 * ((3 * (j : Int) - 30).natAbs) / 30)) <
      (20 * (65536 - ((256 * ((3 * (j : Int) - 30).natAbs) + 29) / 30) *
          ((256 * ((3 * (j : Int) - 30).natAbs) + 29) / 30)) / 65536 + 1) * 65536 ∧
    20 * (65536 - ((256 * ((3 * (j : Int) - 30).natAbs) + 29) / 30) *
          ((256 * ((3 * (j : Int) - 30).natAbs) + 29) / 30)) / 65536 ≤ 20 ∧
    (j = 0 ∨ j = 20 →
      20 * (65536 - ((256 * ((3 * (j : Int) - 30).natAbs) + 29) / 30) *
          ((256 * ((3 * (j : Int) - 30).natAbs) + 29) / 30)) / 65536 = 0) ∧
    (j = 10 →
      20 * (65536 - ((256 * ((3 * (j : Int) - 30).natAbs) + 29) / 30) *
          ((256 * ((3 * (j : Int) - 30).natAbs) + 29) / 30)) / 65536 = 20) := by
  decide

theorem FloatRounding.dyadic {rnd : ℚ → ℚ} (hr : FloatRounding rnd) (m : Nat) (j : Nat)
    (hm : m ≤ 16777216) (hj : j ≤ 32) :
    rnd ((m : ℚ) / 2 ^ j) = (m : ℚ) / 2 ^ j ∧ rnd (-((m : ℚ) / 2 ^ j)) = -((m : ℚ) / 2 ^ j) := by
  have h1 := hr.exact (m : Int) j (by omega) (by exact_mod_cast hm) hj
  have h2 := hr.exact (-(m : Int)) j (by omega) (by omega) hj
  constructor
  · simpa using h1
  · simpa [neg_div] using h2

/-- One point of the happy mouth: when the distance `d` of the abscissa to the
centre is enclosed by `ma / 256` and `mb / 256` (in units of `30`) and
`20 * (1 - t²)` stays in `[n, n + 1)` over that enclosure, the float
computation of `curveY` and the exact formula both give `cy + n`. -/
theorem happyMouth_point_at {rnd : ℚ → ℚ} (hr : FloatRounding rnd) (cx cy dd : Int)
    (d ma mb n : Nat) (hd : dd.natAbs = d)
    (c1 : 30 * ma ≤ 256 * d) (c2 : 256 * d ≤ 30 * mb) (c3 : mb ≤ 256)
    (c4 : n * 65536 ≤ 20 * (65536 - mb * mb))
    (c5 : 20 * (65536 - ma * ma) < (n + 1) * 65536) :
    BMOGraphics.curveY rnd cx cy 60 20 true (cx + dd) = some (cy + (n : Int)) ∧
      parabolaY cx cy (cx + dd) = cy + (n : Int) := by
  have hma : ma ≤ 256 := by omega
  have hd30 : d ≤ 30 := by omega
  have hmm : ma * ma ≤ 65536 := by nlinarith
  have hbb : mb * mb ≤ 65536 := by nlinarith
  -- the bounds as rationals
  have c1q : (30 : ℚ) * ma ≤ 256 * d := by exact_mod_cast c1
  have c2q : (256 : ℚ) * d ≤ 30 * mb := by exact_mod_cast c2
  have c3q : (mb : ℚ) ≤ 256 := by exact_mod_cast c3
  have c4q : (n : ℚ) * 65536 ≤ 20 * (65536 - (mb : ℚ) * mb) := by
    have := c4
    zify [hbb] at this
    exact_mod_cast this
  have c5q : (20 : ℚ) * (65536 - (ma : ℚ) * ma) < ((n : ℚ) + 1) * 65536 := by
    have := c5
    zify [hmm] at this
    exact_mod_cast this
  have hdq : |(dd : ℚ)| = (d : ℚ) := by
    rw [← hd, Nat.cast_natAbs, Int.cast_abs]
  have hw : Int.tdiv 60 2 = 30 := by decide
  have hx : cx + dd - cx = dd := by omega
  have habs : |((cx + dd - cx : Int) : ℚ) / ((Int.tdiv 60 2 : Int) : ℚ)| = (d : ℚ) / 30 := by
    rw [hw, hx, abs_div, hdq]
    norm_num
  have ha0 : (0 : ℚ) ≤ (ma : ℚ) / 2 ^ 8 := by positivity
  have hlo : (ma : ℚ) / 2 ^ 8 ≤ (d : ℚ) / 30 := by
    rw [div_le_div_iff₀ (by norm_num) (by norm_num)]
    linarith
  have hhi : (d : ℚ) / 30 ≤ (mb : ℚ) / 2 ^ 8 := by
    rw [div_le_div_iff₀ (by norm_num) (by norm_num)]
    linarith
  have hb1 : (mb : ℚ) / 2 ^ 8 ≤ 1 := by
    rw [div_le_one (by norm_num)]
    linarith
  -- the numbers the rounding leaves alone
  have eaa : (ma : ℚ) / 2 ^ 8 * ((ma : ℚ) / 2 ^ 8) = ((ma * ma : Nat) : ℚ) / 2 ^ 16 := by
    push_cast; ring
  have ebb : (mb : ℚ) / 2 ^ 8 * ((mb : ℚ) / 2 ^ 8) = ((mb * mb : Nat) : ℚ) / 2 ^ 16 := by
    push_cast; ring
  have eua : 1 - (ma : ℚ) / 2 ^ 8 * ((ma : ℚ) / 2 ^ 8)
      = ((65536 - ma * ma : Nat) : ℚ) / 2 ^ 16 := by
    rw [Nat.cast_sub hmm]; push_cast; ring
  have eub : 1 - (mb : ℚ) / 2 ^ 8 * ((mb : ℚ) / 2 ^ 8)
      = ((65536 - mb * mb : Nat) : ℚ) / 2 ^ 16 := by
    rw [Nat.cast_sub hbb]; push_cast; ring
  have epa : ((20 : Int) : ℚ) * (1 - (ma : ℚ) / 2 ^ 8 * ((ma : ℚ) / 2 ^ 8))
      = ((20 * (65536 - ma * ma) : Nat) : ℚ) / 2 ^ 16 := by
    rw [eua]; push_cast; ring
  have epb : ((20 : Int) : ℚ) * (1 - (mb : ℚ) / 2 ^ 8 * ((mb : ℚ) / 2 ^ 8))
      = ((20 * (65536 - mb * mb) : Nat) : ℚ) / 2 ^ 16 := by
    rw [eub]; push_cast; ring
  obtain ⟨p, p1, p2, _, _, e⟩ := curveY_enclosed hr cx cy 60 20 true (cx + dd)
    ((ma : ℚ) / 2 ^ 8) ((mb : ℚ) / 2 ^ 8)
    (by decide) (by decide) (by omega) (by omega) (by decide) (by decide) ha0 hb1
    (by rw [habs]; exact hlo) (by rw [habs]; exact hhi)
    (hr.dyadic ma 8 (by omega) (by decide)).1 (hr.dyadic ma 8 (by omega) (by decide)).2
    (hr.dyadic mb 8 (by omega) (by decide)).1 (hr.dyadic mb 8 (by omega) (by decide)).2
    (by rw [eaa]; exact (hr.dyadic _ 16 (by omega) (by decide)).1)
    (by rw [ebb]; exact (hr.dyadic _ 16 (by omega) (by decide)).1)
    (by rw [eua]; exact (hr.dyadic _ 16 (by omega) (by decide)).1)
    (by rw [eub]; exact (hr.dyadic _ 16 (by omega) (by decide)).1)
    (by rw [epa]; exact (hr.dyadic _ 16 (by omega) (by decide)).1)
    (by rw [epb]; exact (hr.dyadic _ 16 (by omega) (by decide)).1)
  -- both ends of the enclosure lie in [n, n + 1)
  have hn1 : ((n : Int) : ℚ) ≤ ((20 : Int) : ℚ) * (1 - (mb : ℚ) / 2 ^ 8 * ((mb : ℚ) / 2 ^ 8)) := by
    have : (n : ℚ) ≤ 20 * (65536 - (mb : ℚ) * mb) / 65536 := by
      rw [le_div_iff₀ (by norm_num)]; exact c4q
    push_cast
    calc (n : ℚ) ≤ 20 * (65536 - (mb : ℚ) * mb) / 65536 := this
      _ = 20 * (1 - (mb : ℚ) / 2 ^ 8 * ((mb : ℚ) / 2 ^ 8)) := by ring
  have hn2 : ((20 : Int) : ℚ) * (1 - (ma : ℚ) / 2 ^ 8 * ((ma : ℚ) / 2 ^ 8))
      < ((n : Int) : ℚ) + 1 := by
    have : 20 * (65536 - (ma : ℚ) * ma) / 65536 < (n : ℚ) + 1 := by
      rw [div_lt_iff₀ (by norm_num)]; exact c5q
    push_cast
    calc 20 * (1 - (ma : ℚ) / 2 ^ 8 * ((ma : ℚ) / 2 ^ 8))
        = 20 * (65536 - (ma : ℚ) * ma) / 65536 := by ring
      _ < (n : ℚ) + 1 := this
  constructor
  · rw [e, truncate_eq_of_mem (le_trans hn1 p1) (lt_of_le_of_lt p2 hn2) (by omega)]
    simp
  · unfold parabolaY
    have hq : (((cx + dd - cx : Int) : ℚ) / 30) * (((cx + dd - cx : Int) : ℚ) / 30)
        = (d : ℚ) / 30 * ((d : ℚ) / 30) := by
      rw [hx, ← abs_mul_abs_self ((dd : ℚ) / 30), abs_div, hdq]
      norm_num
    rw [hq]
    have l : (ma : ℚ) / 2 ^ 8 * ((ma : ℚ) / 2 ^ 8) ≤ (d : ℚ) / 30 * ((d : ℚ) / 30) :=
      mul_le_mul hlo hlo ha0 (le_trans ha0 hlo)
    have u : (d : ℚ) / 30 * ((d : ℚ) / 30) ≤ (mb : ℚ) / 2 ^ 8 * ((mb : ℚ) / 2 ^ 8) :=
      mul_le_mul hhi hhi (le_trans ha0 hlo) (le_trans (le_trans ha0 hlo) hhi)
    have hn1' : (n : ℚ) ≤ 20 * (1 - (mb : ℚ) / 2 ^ 8 * ((mb : ℚ) / 2 ^ 8)) := by
      simpa using hn1
    have hn2' : 20 * (1 - (ma : ℚ) / 2 ^ 8 * ((ma : ℚ) / 2 ^ 8)) < (n : ℚ) + 1 := by
      simpa using hn2
    rw [truncate_eq_of_mem (n := (n : Int)) (by push_cast; linarith) (by push_cast; linarith)
      (by omega)]

/-- Each of the 21 points of the happy mouth: the float computation of
`curveY` is defined and agrees with the exact formula, and the point lies at
most `20` below `cy`, exactly `20` below at the centre and level with `cy` at
both ends. -/
theorem happyMouth_point {rnd : ℚ → ℚ} (hr : FloatRounding rnd) (cx cy : Int) (j : Nat)
    (hj : j ≤ 20) :
    BMOGraphics.curveY rnd cx cy 60 20 true (cx - 30 + 3 * (j : Int)) =
        some (parabolaY cx cy (cx - 30 + 3 * (j : Int))) ∧
      cy ≤ parabolaY cx cy (cx - 30 + 3 * (j : Int)) ∧
      parabolaY cx cy (cx - 30 + 3 * (j : Int)) ≤ cy + 20 ∧
      (j = 0 ∨ j = 20 → parabolaY cx cy (cx - 30 + 3 * (j : Int)) = cy) ∧
      (j = 10 → parabolaY cx cy (cx - 30 + 3 * (j : Int)) = cy + 20) := by
  obtain ⟨c1, c2, c3, c4, c5, t1, t2, t3⟩ := happyMouth_table j hj
  have hx : cx - 30 + 3 * (j : Int) = cx + (3 * (j : Int) - 30) := by ring
  obtain ⟨e1, e2⟩ := happyMouth_point_at hr cx cy (3 * (j : Int) - 30) _ _ _ _ rfl c1 c2 c3 c4 c5
  rw [hx, e1, e2]
  refine ⟨rfl, by omega, by omega, fun h => ?_, fun h => ?_⟩
  · rw [t2 h]; simp
  · rw [t3 h]; simp

theorem foldlM_congr_mem {α : Type} (l : List α) (f h : GfxWorld → α → Option GfxWorld)
    (hfh : ∀ i ∈ l, ∀ g, f g i = h g i) (g : GfxWorld) : l.foldlM f g = l.foldlM h g := by
  induction l generalizing g with
  | nil => rfl
  | cons a l ih =>
    simp only [List.foldlM_cons]
    rw [hfh a (List.mem_cons_self a l)]
    cases h g a with
    | none => rfl
    | some g' => exact ih (fun i hi => hfh i (List.mem_cons_of_mem a hi)) g'

/-- C17: under a rounding that is monotone and exact on short dyadic rationals,
the happy mouth centred at `(cx, cy)` is the 20 thick segments (thickness `3`,
black) joining consecutive points of `happyMouthPoint`: segment `i` runs from
point `i`, at `x = cx - 30 + 3 i`, to point `i + 1`, at `x = cx - 30 + 3 (i+1)`,
which is where segment `i + 1` starts; the ordinate the code computes in
`float` at each of the 21 points is `cy + trunc(20 * (1 - t*t))` with
`t = (x - cx) / 30` in exact arithmetic; the first point is `(cx - 30, cy)`,
the last `(cx + 30, cy)`, the lowest `(cx, cy + 20)`; and on a renderer holding
a handle the call returns.  The centre is such that no 32-bit `int` of the
source overflows: the smallest values computed are `cx - 31` and `cy - 1`, the
largest `cx + 32` and `cy + 22` (an end point moved by the offsets `i - 1`,
`j - 1` of `drawThickLine`, `i, j < 3`), and every coordinate handed on, with
the sum `x + i`, `y + j` before it, fits 32 bits. -/
theorem happyMouth_parabola (rnd : ℚ → ℚ) (hr : FloatRounding rnd) (cx cy : Int)
    (hx1 : -2147483648 ≤ cx - 31) (hx2 : cx + 32 ≤ 2147483647)
    (hy1 : -2147483648 ≤ cy - 1) (hy2 : cy + 22 ≤ 2147483647) (g : GfxWorld) :
    BMOGraphics.drawHappyMouth rnd cx cy g =
        (List.range 20).foldlM (fun g i =>
          BMOGraphics.drawThickLine (happyMouthPoint cx cy i).1 (happyMouthPoint cx cy i).2
            (happyMouthPoint cx cy (i + 1)).1 (happyMouthPoint cx cy (i + 1)).2 3 BMO_BLACK g) g ∧
      (∀ j : Nat, j ≤ 20 →
        BMOGraphics.curveY rnd cx cy MOUTH_WIDTH MOUTH_HEIGHT true (cx - 30 + 3 * (j : Int)) =
          some (happyMouthPoint cx cy j).2) ∧
      happyMouthPoint cx cy 0 = (cx - 30, cy) ∧
      happyMouthPoint cx cy 20 = (cx + 30, cy) ∧
      happyMouthPoint cx cy 10 = (cx, cy + 20) ∧
      (∀ j : Nat, j ≤ 20 → (happyMouthPoint cx cy j).2 ≤ cy + 20) ∧
      (g.graphics.tft ≠ none → ∃ g', BMOGraphics.drawHappyMouth rnd cx cy g = some g') ∧
      (∀ j : Nat, j ≤ 20 → ∀ k : Int, 0 ≤ k → k < 3 →
        -2147483648 ≤ (happyMouthPoint cx cy j).1 + k - 1 ∧
          (happyMouthPoint cx cy j).1 + k ≤ 2147483647 ∧
          -2147483648 ≤ (happyMouthPoint cx cy j).2 + k - 1 ∧
          (happyMouthPoint cx cy j).2 + k ≤ 2147483647) := by
  refine ⟨?_, ?_, ?_, ?_, ?_, ?_, ?_, ?_⟩
  · simp only [BMOGraphics.drawHappyMouth, BMOGraphics.drawCurve, forUpTo]
    apply foldlM_congr_mem
    intro i hi g'
    have hi' : i < 20 := List.mem_range.mp hi
    have w2 : Int.tdiv MOUTH_WIDTH 2 = 30 := by decide
    have w20 : Int.tdiv MOUTH_WIDTH 20 = 3 := by decide
    have x1 : cx - 30 + (i : Int) * 3 = cx - 30 + 3 * (i : Int) := by ring
    have x2 : cx - 30 + ((i : Int) + 1) * 3 = cx - 30 + 3 * ((i + 1 : Nat) : Int) := by
      push_cast; ring
    have e1 := (happyMouth_point hr cx cy i (by omega)).1
    have e2 := (happyMouth_point hr cx cy (i + 1) (by omega)).1
    simp only [w2, w20, x1, x2]
    have m60 : MOUTH_WIDTH = 60 := rfl
    have m20 : MOUTH_HEIGHT = 20 := rfl
    rw [m60, m20, e1, e2]
    rfl
  · intro j hj
    exact (happyMouth_point hr cx cy j hj).1
  · have h := (happyMouth_point hr cx cy 0 (by decide)).2.2.2.1 (Or.inl rfl)
    simp only [happyMouthPoint, h]
    simp
  · have h := (happyMouth_point hr cx cy 20 (by decide)).2.2.2.1 (Or.inr rfl)
    simp only [happyMouthPoint, h]
    norm_num
    omega
  · have h := (happyMouth_point hr cx cy 10 (by decide)).2.2.2.2 rfl
    simp only [happyMouthPoint, h]
    norm_num
  · intro j hj
    exact (happyMouth_point hr cx cy j hj).2.2.1
  · intro hg
    obtain ⟨evs, _, h⟩ := draws_drawCurve hr cx cy MOUTH_WIDTH MOUTH_HEIGHT BMO_BLACK true
      (by decide) (by decide) (by decide) (by decide) (by decide) (by decide)
    exact ⟨_, h g hg⟩
  · intro j hj k hk0 hk3
    obtain ⟨_, lo, hi, _, _⟩ := happyMouth_point hr cx cy j hj
    have hx : (happyMouthPoint cx cy j).1 = cx - 30 + 3 * (j : Int) := rfl
    have hy : (happyMouthPoint cx cy j).2 = parabolaY cx cy (cx - 30 + 3 * (j : Int)) := rfl
    rw [hx, hy]
    omega

/-- C17, witness: the happy mouth of the face, centred at `(120, 190)`, on the
sample bound renderer: it starts at `(90, 190)`, is lowest at `(120, 210)`,
ends at `(150, 190)`, and the call returns. -/
theorem happyMouth_parabola_witness :
    happyMouthPoint 120 190 0 = (90, 190) ∧ happyMouthPoint 120 190 10 = (120, 210) ∧
      happyMouthPoint 120 190 20 = (150, 190) ∧
      ∃ g', BMOGraphics.drawHappyMouth id 120 190 BMOGraphics.boundWorld = some g' :=
  ⟨(happyMouth_parabola id floatRounding_id 120 190 (by decide) (by decide) (by decide)
      (by decide) BMOGraphics.boundWorld).2.2.1,
    (happyMouth_parabola id floatRounding_id 120 190 (by decide) (by decide) (by decide)
      (by decide) BMOGraphics.boundWorld).2.2.2.2.1,
    (happyMouth_parabola id floatRounding_id 120 190 (by decide) (by decide) (by decide)
      (by decide) BMOGraphics.boundWorld).2.2.2.1,
    (happyMouth_parabola id floatRounding_id 120 190 (by decide) (by decide) (by decide)
      (by decide) BMOGraphics.boundWorld).2.2.2.2.2.2.1 (by decide)⟩

end BMO
